import Mathlib

/-!
# DisFuse (DiscordBlockCoding): slash-command blocks and their code generators

A shallow embedding of `src/blocks/slash.js` (the block definitions registered in
`Blockly.Blocks` and the generator functions registered in
`javascriptGenerator.forBlock`) and of the code-generation listener of
`src/Workspace.js`.

The generator functions call into the Blockly library (`generator.valueToCode`,
`generator.statementToCode`, `javascriptGenerator.workspaceToCode`).  The library is
an external dependency of the repository.  It appears here three times:

* as the parameter `generator` of every generator function, exactly as in the
  JavaScript signature `function (block, generator)`; statements about a single
  generator function hold for every value of that parameter;
* as a model of Blockly's `CodeGenerator` class (namespace `javascriptGenerator`)
  and of the listener `Blockly.Events.disableOrphans`, used where a statement is
  about a whole generation pass;
* as the parameter `lib : Library` of that model: the block definitions and
  generator functions that Blockly itself and the five other block modules imported
  by Workspace.js register.  Those modules are not among the sources, so statements
  about a pass hold for every library.  slash.js is taken to be the only module
  that assigns the ids of its 15 kinds.

Conventions of the embedding:

* a JavaScript exception is an `Except.error`;
* a block is the serialised node of the workspace: kind id, field values, the
  enabled flag, bound inputs and the `next` link.  Block comments are not part of
  the model;
* Workspace.js registers `Blockly.Events.disableOrphans` before the code-generation
  listener; `Blockly.Events.disableOrphans` below is the state it leaves: every root
  block with an output or previous connection is disabled, with the blocks down its
  next chain.  The text the app shows for a workspace is
  `changeListener lib (Blockly.Events.disableOrphans lib workspace)`;
* `generator.valueToCode(block, name, order)` is written
  `generator.valueToCode name order`: every call in slash.js passes the function's
  own `block`;
* the autosave to local storage in the change listener is not modelled.
-/

namespace DisFuse

/-! ## JavaScript values used by the generators -/

/-- Exceptions thrown during a generation pass. -/
inductive GenError where
  /-- `Error`: the generator does not know how to generate code for the block type. -/
  | unknownBlockType (type : String)
  /-- `ReferenceError`: the input does not exist on the block. -/
  | inputDoesNotExist (name : String) (type : String)
  /-- `TypeError`: expecting a tuple from a value block. -/
  | expectingTuple (type : String)
  /-- `TypeError`: expecting a string from a statement block. -/
  | expectingString (type : String)
  /-- `TypeError`: expecting code from a statement block. -/
  | expectingCode (type : String)
  /-- `SyntaxError`: invalid code generated. -/
  | invalidCode (type : String)
deriving DecidableEq, Repr

/-- Operator precedence ranks of `blockly/javascript`; slash.js uses `Order.ATOMIC`
and `Order.NONE` only, both whole numbers. -/
abbrev Order := Nat

/-- `Order.ATOMIC`. -/
def Order.ATOMIC : Order := 0

/-- `Order.NONE`. -/
def Order.NONE : Order := 99

/-- What a function registered in `forBlock` returns: a string, an array
`[code, order]`, or `undefined`. -/
inductive GenResult where
  | code (s : String)
  | tuple (s : String) (order : Order)
  | undefined
deriving DecidableEq, Repr

/-- What `blockToCode` returns: a string or an array `[code, order]`. -/
inductive GenValue where
  | str (s : String)
  | tuple (s : String) (order : Order)
deriving DecidableEq, Repr

/-- String conversion of a `blockToCode` result (`String([code, order])` joins the
array with a comma). -/
def GenValue.toJSString : GenValue → String
  | .str s => s
  | .tuple s order => s ++ "," ++ toString order

/-- Template-literal conversion of a value that may be `null`. -/
def jsString : Option String → String
  | some s => s
  | none => "null"

/-- JavaScript truthiness of a string. -/
def truthy (s : String) : Bool := s != ""

/-- JavaScript `a || b` on strings. -/
def jsOr (a b : String) : String := if truthy a then a else b

instance instDecidableEqExcept {ε α : Type} [DecidableEq ε] [DecidableEq α] :
    DecidableEq (Except ε α)
  | .ok a, .ok b => if h : a = b then isTrue (by rw [h]) else isFalse (by intro h2; cases h2; exact h rfl)
  | .error a, .error b =>
    if h : a = b then isTrue (by rw [h]) else isFalse (by intro h2; cases h2; exact h rfl)
  | .ok _, .error _ => isFalse (by intro h; cases h)
  | .error _, .ok _ => isFalse (by intro h; cases h)

/-! ## Block graph -/

mutual
/-- A block instance: kind id, field values, enabled flag, bound inputs, next
statement. -/
inductive Block where
  | mk (type : String) (fields : List (String × String)) (enabled : Bool) (inputs : Inputs)
      (next : Target)
/-- The far end of a connection: nothing, or a block. -/
inductive Target where
  | null
  | block (b : Block)
/-- The bound inputs of a block: input name and the block connected to it. -/
inductive Inputs where
  | nil
  | cons (name : String) (target : Block) (rest : Inputs)
end

/-- The kind id `block.type`. -/
def Block.type : Block → String
  | .mk type _ _ _ _ => type

/-- The field values of a block. -/
def Block.fields : Block → List (String × String)
  | .mk _ fields _ _ _ => fields

/-- `block.isEnabled()`. -/
def Block.enabled : Block → Bool
  | .mk _ _ enabled _ _ => enabled

/-- The bound inputs of a block. -/
def Block.inputs : Block → Inputs
  | .mk _ _ _ inputs _ => inputs

/-- The next-statement link of a block. -/
def Block.next : Block → Target
  | .mk _ _ _ _ next => next

/-- `block.getFieldValue(name)`: the value of the named field, `null` without one. -/
def Block.getFieldValue (block : Block) (name : String) : Option String :=
  block.fields.lookup name

/-- The block connected to the named input, if any. -/
def Inputs.find : Inputs → String → Option Block
  | .nil, _ => none
  | .cons n target rest, name => if n = name then some target else rest.find name

/-! ## The generator argument -/

/-- The `generator` argument of a generator function, with the calling block already
supplied: every call in slash.js is `generator.valueToCode(block, name, order)` or
`generator.statementToCode(block, name)` on the function's own `block`. -/
structure Generator where
  valueToCode : String → Order → Except GenError String
  statementToCode : String → Except GenError String

/-- A function registered in `javascriptGenerator.forBlock`. -/
abbrev GeneratorFn := Block → Generator → Except GenError GenResult

/-! ## Block definitions: `Blockly.Blocks` of slash.js -/

namespace Blockly

/-- Kind of a named input. -/
inductive InputType where
  | value
  | statement
deriving DecidableEq, Repr

/-- A named input of a block definition, with its connection check. -/
structure Input where
  name : String
  type : InputType
  check : Option String
deriving DecidableEq, Repr

/-- The shape that a block definition's `init` builds: named inputs in declaration
order, dropdown fields with their `[label, value]` options, and the connections. -/
structure BlockDef where
  inputList : List Input
  dropdowns : List (String × List (String × String))
  output : Bool
  previousStatement : Bool
  nextStatement : Bool
deriving DecidableEq, Repr

/-- `appendValueInput(name).setCheck(check)`. -/
def appendValueInput (name : String) (check : Option String) : Input :=
  ⟨name, .value, check⟩

/-- `appendStatementInput(name).setCheck(null)`. -/
def appendStatementInput (name : String) : Input :=
  ⟨name, .statement, none⟩

/-- Options of the `type` dropdown of `slash_addoption`. -/
def slash_addoption_type : List (String × String) :=
  [("text", "3"), ("attachment", "11"), ("true/false", "5"), ("channel", "7"),
   ("integer", "4"), ("mentionable", "9"), ("number", "10"), ("role", "8"), ("user", "6")]

/-- Options of the `type` dropdown of `slash_getoption`. -/
def slash_getoption_type : List (String × String) :=
  [("text", "String"), ("attachment", "Attachment"), ("true/false", "Boolean"),
   ("channel", "Channel"), ("integer", "Integer"), ("mentionable", "Mentionable"),
   ("number", "Number"), ("role", "Role"), ("user", "User"), ("member", "Member"),
   ("subcommand", "Subcommand"), ("subcommand group", "SubcommandGroup")]

/-- The entries of `Blockly.Blocks` assigned by slash.js, in source order. -/
def Blocks : List (String × BlockDef) :=
  [("slash_received",
      { inputList := [appendStatementInput "event"],
        dropdowns := [], output := false, previousStatement := false, nextStatement := false }),
   ("slash_createcontainer",
      { inputList := [appendValueInput "guild" (some "String"), appendStatementInput "commands"],
        dropdowns := [], output := false, previousStatement := true, nextStatement := true }),
   ("slash_create",
      { inputList := [appendValueInput "name" (some "String"), appendValueInput "dsc" (some "String"),
          appendValueInput "nsfw" (some "Boolean"), appendValueInput "dm" (some "Boolean"),
          appendValueInput "perms" (some "permission"), appendStatementInput "options"],
        dropdowns := [], output := false, previousStatement := true, nextStatement := true }),
   ("slash_addoption",
      { inputList := [appendValueInput "name" (some "String"), appendValueInput "dsc" (some "String"),
          appendValueInput "required" (some "Boolean"), appendStatementInput "choices"],
        dropdowns := [("type", slash_addoption_type)],
        output := false, previousStatement := true, nextStatement := true }),
   ("slash_addchoice",
      { inputList := [appendValueInput "name" (some "String"), appendValueInput "value" (some "String")],
        dropdowns := [], output := false, previousStatement := true, nextStatement := true }),
   ("slash_addsubcommandgroup",
      { inputList := [appendValueInput "name" (some "String"), appendValueInput "dsc" (some "String"),
          appendStatementInput "subcommands"],
        dropdowns := [], output := false, previousStatement := true, nextStatement := true }),
   ("slash_name",
      { inputList := [], dropdowns := [],
        output := true, previousStatement := false, nextStatement := false }),
   ("slash_addsubcommand",
      { inputList := [appendValueInput "name" (some "String"), appendValueInput "dsc" (some "String"),
          appendStatementInput "options"],
        dropdowns := [], output := false, previousStatement := true, nextStatement := true }),
   ("slash_member",
      { inputList := [], dropdowns := [],
        output := true, previousStatement := false, nextStatement := false }),
   ("slash_user",
      { inputList := [], dropdowns := [],
        output := true, previousStatement := false, nextStatement := false }),
   ("slash_channel",
      { inputList := [], dropdowns := [],
        output := true, previousStatement := false, nextStatement := false }),
   ("slash_server",
      { inputList := [], dropdowns := [],
        output := true, previousStatement := false, nextStatement := false }),
   ("slash_reply",
      { inputList := [appendValueInput "content" (some "String"),
          appendValueInput "ephemeral" (some "Boolean")],
        dropdowns := [], output := false, previousStatement := true, nextStatement := true }),
   ("slash_editreply",
      { inputList := [appendValueInput "content" (some "String")],
        dropdowns := [], output := false, previousStatement := true, nextStatement := true }),
   ("slash_getoption",
      { inputList := [appendValueInput "name" (some "String")],
        dropdowns := [("type", slash_getoption_type)],
        output := true, previousStatement := false, nextStatement := false })]

/-- The value a dropdown field takes when the option with the given label is
selected: the second component of the option. -/
def FieldDropdown.select (options : List (String × String)) (label : String) : Option String :=
  options.lookup label

end Blockly

/-- What Blockly itself and the other block modules imported by Workspace.js
register: block definitions and generator functions, by kind id. -/
structure Library where
  Blocks : String → Option Blockly.BlockDef
  forBlock : String → Option GeneratorFn

/-- The library that registers nothing. -/
def Library.empty : Library :=
  { Blocks := fun _ => none
    forBlock := fun _ => none }

namespace Blockly

/-- `Blockly.Blocks[type]` in the running app: the definition that slash.js assigns,
else the one the library holds. -/
def blockDef (lib : Library) (type : String) : Option BlockDef :=
  match Blocks.lookup type with
  | some d => some d
  | none => lib.Blocks type

/-- Whether blocks of the kind have an input of that name (`block.getInput(name)`). -/
def hasInput (lib : Library) (type name : String) : Bool :=
  match blockDef lib type with
  | some d => d.inputList.any (fun i => i.name == name)
  | none => false

/-- Whether blocks of the kind have an output connection. -/
def hasOutput (lib : Library) (type : String) : Bool :=
  match blockDef lib type with
  | some d => d.output
  | none => false

/-- Whether blocks of the kind have a previous-statement connection. -/
def hasPrevious (lib : Library) (type : String) : Bool :=
  match blockDef lib type with
  | some d => d.previousStatement
  | none => false

/-- Whether blocks of the kind have a next-statement connection. -/
def hasNext (lib : Library) (type : String) : Bool :=
  match blockDef lib type with
  | some d => d.nextStatement
  | none => false

end Blockly

/-! ## Generator functions: `javascriptGenerator.forBlock` of slash.js -/

def slash_getoption : GeneratorFn := fun block generator => do
  let dropdown_type := jsString (block.getFieldValue "type")
  let value_name ← generator.valueToCode "name" Order.ATOMIC
  let code := s!"interaction.options.get{dropdown_type}({value_name});"
  return .tuple code Order.NONE

def slash_editreply : GeneratorFn := fun _block generator => do
  let value_content ← generator.valueToCode "content" Order.ATOMIC
  let code := s!"interaction.editReply(\x7b\n    content: {value_content},\n  \x7d);"
  return .code code

def slash_reply : GeneratorFn := fun _block generator => do
  let value_content ← generator.valueToCode "content" Order.ATOMIC
  let value_ephemeral ← generator.valueToCode "ephemeral" Order.ATOMIC
  let code := s!"interaction.reply(\x7b\n    content: {value_content},\n    ephemeral: {value_ephemeral}\n  \x7d);"
  return .code code

def slash_received : GeneratorFn := fun _block generator => do
  let code ← generator.statementToCode "event"
  let code := s!"client.on(\"interactionCreate\", async (interaction) => \x7b\n          {code}\n      \x7d);"
  return .code code

def slash_createcontainer : GeneratorFn := fun _block generator => do
  let value_guild ← generator.valueToCode "guild" Order.ATOMIC
  let statements_commands ← generator.statementToCode "commands"
  if truthy value_guild then
    return .code s!"client.guilds.cache.get({value_guild}).commands.set([\n    {statements_commands}\n  ]);"
  else if !truthy value_guild then
    return .code s!"client.application.commands.set([\n    {statements_commands}\n  ]);"
  else
    return .undefined

def slash_create : GeneratorFn := fun _block generator => do
  let name ← generator.valueToCode "name" Order.ATOMIC
  let dsc ← generator.valueToCode "dsc" Order.ATOMIC
  let options ← generator.statementToCode "options"
  let nsfw ← generator.valueToCode "nsfw" Order.ATOMIC
  let perm ← generator.valueToCode "perms" Order.ATOMIC
  let perm_or_default := jsOr perm "[]"
  let code := s!"\x7b\n      name: {name},\n      description: {dsc},\n      nsfw: {nsfw},\n      defaultMemberPermissions: {perm_or_default},\n      options: [{options}]\n    \x7d,"
  return .code code

def slash_addoption : GeneratorFn := fun block generator => do
  let dropdown_type := jsString (block.getFieldValue "type")
  let value_name ← generator.valueToCode "name" Order.ATOMIC
  let value_dsc ← generator.valueToCode "dsc" Order.ATOMIC
  let value_required ← generator.valueToCode "required" Order.ATOMIC
  let statements_choices ← generator.statementToCode "choices"
  let code := s!"\x7b\n    type: {dropdown_type},\n    name: {value_name},\n    description: {value_dsc},\n    required: {value_required},\n    choices: [{statements_choices}]\n  \x7d,"
  return .code code

def slash_addchoice : GeneratorFn := fun _block generator => do
  let value_name ← generator.valueToCode "name" Order.ATOMIC
  let value_value ← generator.valueToCode "value" Order.ATOMIC
  let code := s!"\x7b\n    name: {value_name},\n    value: {value_value}\n  \x7d,"
  return .code code

def slash_server : GeneratorFn := fun _block _generator => do
  let code := "interaction.guild"
  return .code code

def slash_channel : GeneratorFn := fun _block _generator => do
  let code := "interaction.channel"
  return .code code

def slash_member : GeneratorFn := fun _block _generator => do
  let code := "interaction.member"
  return .code code

def slash_user : GeneratorFn := fun _block _generator => do
  let code := "interaction.member.user"
  return .code code

def slash_addsubcommand : GeneratorFn := fun _block generator => do
  let value_name ← generator.valueToCode "name" Order.ATOMIC
  let value_dsc ← generator.valueToCode "dsc" Order.ATOMIC
  let statements_options ← generator.statementToCode "options"
  let code := s!"\x7b\n    type: 1,\n    name: {value_name},\n    description: {value_dsc},\n    options: [{statements_options}]\n  \x7d,"
  return .code code

def slash_addsubcommandgroup : GeneratorFn := fun _block generator => do
  let value_name ← generator.valueToCode "name" Order.ATOMIC
  let value_dsc ← generator.valueToCode "dsc" Order.ATOMIC
  let statements_subcommands ← generator.statementToCode "subcommands"
  let code := s!"\x7b\n    type: 2,\n    name: {value_name},\n    description: {value_dsc},\n    options: [{statements_subcommands}]\n  \x7d,"
  return .code code

def slash_name : GeneratorFn := fun _block _generator => do
  let code := "interaction.commandName"
  return .tuple code Order.NONE

/-! ## The generator registry and Blockly's `CodeGenerator`

`forBlockTable` holds the assignments of slash.js; `forBlock lib` is the registry of
the running app.  The other definitions of this namespace model the Blockly library (`CodeGenerator` of `blockly/core` and
`JavascriptGenerator` of `blockly/javascript`), which is not part of the
repository's sources: `blockToCode`, `valueToCode`, `statementToCode`, `scrub_`,
`prefixLines`, `workspaceToCode`, `finish` and `scrubNakedValue`. -/

namespace javascriptGenerator

/-- The assignments `javascriptGenerator.forBlock[...] = ...` of slash.js, in source
order. -/
def forBlockTable : List (String × GeneratorFn) :=
  [("slash_getoption", slash_getoption),
   ("slash_editreply", slash_editreply),
   ("slash_reply", slash_reply),
   ("slash_received", slash_received),
   ("slash_createcontainer", slash_createcontainer),
   ("slash_create", slash_create),
   ("slash_addoption", slash_addoption),
   ("slash_addchoice", slash_addchoice),
   ("slash_server", slash_server),
   ("slash_channel", slash_channel),
   ("slash_member", slash_member),
   ("slash_user", slash_user),
   ("slash_addsubcommand", slash_addsubcommand),
   ("slash_addsubcommandgroup", slash_addsubcommandgroup),
   ("slash_name", slash_name)]

/-- `javascriptGenerator.forBlock[type]` in the running app: the function that
slash.js assigns, else the one the library holds. -/
def forBlock (lib : Library) (type : String) : Option GeneratorFn :=
  match forBlockTable.lookup type with
  | some func => some func
  | none => lib.forBlock type

/-- `INDENT`: two spaces. -/
def INDENT : String := "  "

/-- Characters of `text.replace(/(?!\n$)\n/g, '\n' + pre)`: every newline except one
that ends the text is followed by `pre`. -/
def prefixLinesAux (pre : List Char) : List Char → List Char
  | [] => []
  | c :: rest =>
    if c = '\n' ∧ rest ≠ [] then c :: (pre ++ prefixLinesAux pre rest)
    else c :: prefixLinesAux pre rest

/-- `prefixLines(text, pre)`: `pre + text.replace(/(?!\n$)\n/g, '\n' + pre)`. -/
def prefixLines (text pre : String) : String :=
  pre ++ String.mk (prefixLinesAux pre.data text.data)

/-- The code of the blocks connected to the inputs of a block, as computed by
`blockToCode`: input name, kind of the connected block, result. -/
abbrev InputCodes := List (String × String × Except GenError GenValue)

/-- `ORDER_OVERRIDES` entries over whole-number orders:
`[FUNCTION_CALL, FUNCTION_CALL]`, `[LOGICAL_AND, LOGICAL_AND]`,
`[LOGICAL_OR, LOGICAL_OR]`.  No entry has `Order.ATOMIC` as outer order. -/
def ORDER_OVERRIDES : List (Order × Order) := [(2, 2), (13, 13), (14, 14)]

/-- `valueToCode(block, name, outerOrder)` for a block of kind `type` whose connected
inputs generate `codes`. -/
def valueToCode (lib : Library) (type : String) (codes : InputCodes) (name : String)
    (outerOrder : Order) : Except GenError String :=
  match codes.lookup name with
  | none =>
    if Blockly.hasInput lib type name then pure ""
    else throw (.inputDoesNotExist name type)
  | some (targetType, result) => do
    let tuple ← result
    match tuple with
    | .str code =>
      if code = "" then pure ""
      else throw (.expectingTuple targetType)
    | .tuple code innerOrder =>
      if !truthy code then pure ""
      else
        let parensNeeded :=
          if outerOrder ≤ innerOrder then
            if outerOrder = innerOrder ∧ (outerOrder = 0 ∨ outerOrder = 99) then false
            else !(ORDER_OVERRIDES.contains (outerOrder, innerOrder))
          else false
        if parensNeeded then pure ("(" ++ code ++ ")") else pure code

/-- `statementToCode(block, name)` for a block of kind `type` whose connected inputs
generate `codes`. -/
def statementToCode (lib : Library) (type : String) (codes : InputCodes) (name : String) :
    Except GenError String :=
  match codes.lookup name with
  | none =>
    if Blockly.hasInput lib type name then pure ""
    else throw (.inputDoesNotExist name type)
  | some (targetType, result) => do
    let code ← result
    match code with
    | .tuple _ _ => throw (.expectingCode targetType)
    | .str code => if truthy code then pure (prefixLines code INDENT) else pure code

/-- The `generator` argument handed to the generator function of a block of kind
`type` whose connected inputs generate `codes`. -/
def generatorFor (lib : Library) (type : String) (codes : InputCodes) : Generator :=
  { valueToCode := valueToCode lib type codes
    statementToCode := statementToCode lib type codes }

/-- The part of `blockToCode` after the generator function has returned `result`:
the checks on the shape of the result and `scrub_`, which appends the code of the
next block (`nextCode`, consulted only when the kind has a next connection). -/
def finishBlock (lib : Library) (type : String) (result : GenResult)
    (nextCode : Except GenError GenValue) : Except GenError GenValue :=
  let scrub_ (code : String) : Except GenError String :=
    if Blockly.hasNext lib type then do
      let next ← nextCode
      pure (code ++ next.toJSString)
    else pure code
  match result with
  | .tuple code order =>
    if !Blockly.hasOutput lib type then throw (.expectingString type)
    else do
      let code ← scrub_ code
      pure (.tuple code order)
  | .code code => do
    let code ← scrub_ code
    pure (.str code)
  | .undefined => throw (.invalidCode type)

mutual
/-- `blockToCode(block)`: a disabled block is skipped and the pass continues with its
next block; for an enabled block, look up the generator function of the block's
kind, call it with a generator bound to the block, then append the code of the next
block. -/
def blockToCode (lib : Library) : Block → Except GenError GenValue
  | .mk type fields enabled inputs next =>
    if !enabled then
      if Blockly.hasNext lib type then targetToCode lib next else pure (.str "")
    else
      match forBlock lib type with
      | none => throw (.unknownBlockType type)
      | some func => do
        let result ← func (.mk type fields enabled inputs next)
          (generatorFor lib type (inputsToCode lib inputs))
        finishBlock lib type result (targetToCode lib next)
/-- `blockToCode` of a connection target; `blockToCode(null)` is the empty string. -/
def targetToCode (lib : Library) : Target → Except GenError GenValue
  | .null => pure (.str "")
  | .block b => blockToCode lib b
/-- `blockToCode` of every connected input. -/
def inputsToCode (lib : Library) : Inputs → InputCodes
  | .nil => []
  | .cons name target rest =>
    (name, target.type, blockToCode lib target) :: inputsToCode lib rest
end

/-- The generator function of a block applied to the block itself: the own fragment
of an enabled block, without the code of its next block. -/
def ownCode (lib : Library) (block : Block) : Except GenError GenResult :=
  match forBlock lib block.type with
  | none => throw (.unknownBlockType block.type)
  | some func => func block (generatorFor lib block.type (inputsToCode lib block.inputs))

/-- `scrubNakedValue(line)` of the JavaScript generator. -/
def scrubNakedValue (line : String) : String := line ++ ";\n"

/-- The loop of `workspaceToCode` over the top blocks: the non-empty lines. -/
def topBlocksToCode (lib : Library) : List Block → Except GenError (List String)
  | [] => pure []
  | block :: blocks => do
    let line ← blockToCode lib block
    let line := match line with
      | .tuple code _ => code
      | .str code => code
    let rest ← topBlocksToCode lib blocks
    if truthy line then
      if Blockly.hasOutput lib block.type then pure (scrubNakedValue line :: rest)
      else pure (line :: rest)
    else pure rest

/-- `finish(code)` of the JavaScript generator for a workspace without variable or
helper definitions. -/
def finish (code : String) : String := "\n\n\n" ++ code

/-- The class `\s` of JavaScript regular expressions. -/
def isJsSpace (c : Char) : Bool :=
  c = ' ' ∨ c = '\t' ∨ c = '\n' ∨ c = '\r' ∨ c.toNat = 0x0b ∨ c.toNat = 0x0c ∨
  c.toNat = 0xa0 ∨ c.toNat = 0x1680 ∨ (0x2000 ≤ c.toNat ∧ c.toNat ≤ 0x200a) ∨
  c.toNat = 0x2028 ∨ c.toNat = 0x2029 ∨ c.toNat = 0x202f ∨ c.toNat = 0x205f ∨
  c.toNat = 0x3000 ∨ c.toNat = 0xfeff

/-- Length of the match of `\s+\n` at the start of a list of characters, taking
`seen` characters of white space as already read: the longest one, if any. -/
def leadingBlankLength : List Char → Nat → Option Nat
  | [], _ => none
  | c :: rest, seen =>
    if isJsSpace c then
      match leadingBlankLength rest (seen + 1) with
      | some n => some n
      | none => if c = '\n' ∧ 0 < seen then some (seen + 1) else none
    else none

/-- `s.replace(/^\s+\n/, '')`. -/
def dropLeadingBlank (s : List Char) : List Char :=
  match leadingBlankLength s 0 with
  | some n => s.drop n
  | none => s

/-- `s.replace(/\n\s+$/, '\n')`. -/
def trimTrailingBlank : List Char → List Char
  | [] => []
  | c :: rest =>
    if c = '\n' ∧ rest ≠ [] ∧ rest.all isJsSpace then [c]
    else c :: trimTrailingBlank rest

/-- `s.replace(/[ \t]+\n/g, '\n')`. -/
def stripLineEnds : List Char → List Char
  | [] => []
  | c :: rest =>
    let r := stripLineEnds rest
    if (c = ' ' ∨ c = '\t') ∧ r.head? = some '\n' then r else c :: r

/-- `workspaceToCode(workspace)`: the lines of the top blocks joined by a newline,
passed through `finish`, then scrubbed of white space. -/
def workspaceToCode (lib : Library) (workspace : List Block) : Except GenError String := do
  let code ← topBlocksToCode lib workspace
  let codeString := "\n".intercalate code
  let codeString := finish codeString
  let codeString := String.mk (dropLeadingBlank codeString.data)
  let codeString := String.mk (trimTrailingBlank codeString.data)
  let codeString := String.mk (stripLineEnds codeString.data)
  return codeString

end javascriptGenerator

/-! ## The listener `Blockly.Events.disableOrphans` -/

namespace Blockly.Events

mutual
/-- The loop `do block.setEnabled(false); block = block.getNextBlock(); while (block)`:
the block and the blocks down its next chain, disabled. -/
def disableChain (lib : Library) : Block → Block
  | .mk type fields _ inputs next =>
    .mk type fields false inputs (if Blockly.hasNext lib type then disableTarget lib next else next)
/-- The loop of `disableChain` from a connection target. -/
def disableTarget (lib : Library) : Target → Target
  | .null => .null
  | .block b => .block (disableChain lib b)
end

/-- The state that `Blockly.Events.disableOrphans` leaves: a root block has no
parent, so when it has an output or a previous connection it is disabled together
with the blocks down its next chain; other blocks keep their state. -/
def disableOrphans (lib : Library) (workspace : List Block) : List Block :=
  workspace.map fun block =>
    if Blockly.hasOutput lib block.type || Blockly.hasPrevious lib block.type then
      disableChain lib block
    else block

end Blockly.Events

/-! ## The code-generation listener of Workspace.js -/

/-- The text before the generated code in the template literal of the listener. -/
def preamble : String :=
  "const Discord = require(\"discord.js\");\n      const moment = require(\"moment\");\n      const gamecord = require(\"discord-gamecord\");\n      const client = new Discord.Client(\x7b intents: 3276799 \x7d);\n\n      client.setMaxListeners(0);\n\n      client.on(\"ready\", () => \x7b\n      console.log(client.user.username + \" is logged in\");\n      \x7d);\n\n      "

/-- The change listener of Workspace.js: the text assigned to `codeEle.innerText`.
An exception of `workspaceToCode` leaves the listener before the assignment. -/
def changeListener (lib : Library) (workspace : List Block) : Except GenError String := do
  let generated ← javascriptGenerator.workspaceToCode lib workspace
  let js := s!"const Discord = require(\"discord.js\");\n      const moment = require(\"moment\");\n      const gamecord = require(\"discord-gamecord\");\n      const client = new Discord.Client(\x7b intents: 3276799 \x7d);\n\n      client.setMaxListeners(0);\n\n      client.on(\"ready\", () => \x7b\n      console.log(client.user.username + \" is logged in\");\n      \x7d);\n\n      {generated}\n      "
  return js

/-! ## Templates and sample inputs used in the statements -/

/-- The global-registration variant of the `slash_createcontainer` template. -/
def globalVariant (c : String) : String :=
  "client.application.commands.set([\n    " ++ c ++ "\n  ]);"

/-- The guild-scoped variant of the `slash_createcontainer` template. -/
def guildVariant (g c : String) : String :=
  "client.guilds.cache.get(" ++ g ++ ").commands.set([\n    " ++ c ++ "\n  ]);"

/-- A generator whose value sockets all generate `v` and whose statement sockets
all generate `s`. -/
def constGenerator (v s : String) : Generator :=
  { valueToCode := fun _ _ => .ok v
    statementToCode := fun _ => .ok s }

/-- An enabled block of the given kind with nothing set or connected. -/
def emptyBlock (type : String) : Block := .mk type [] true .nil .null

/-- A `slash_reply` block whose `content` socket holds a `slash_user` block and whose
`ephemeral` socket is unbound. -/
def replyWithUser : Block :=
  .mk "slash_reply" [] true (.cons "content" (emptyBlock "slash_user") .nil) .null

/-- An enabled `slash_received` block whose `event` socket holds the given block. -/
def receivedWith (body : Block) : Block :=
  .mk "slash_received" [] true (.cons "event" body .nil) .null

/-- The `slash_reply` template of the claim, with the content and ephemeral code in
place. -/
def replyTemplate (content ephemeral : String) : String :=
  "interaction.reply(\x7b\n    content: " ++ content ++ ",\n    ephemeral: " ++ ephemeral ++ "\n  \x7d);"

/-- The `slash_addoption` template with the type token and the socket codes in
place. -/
def addoptionTemplate (token name dsc required choices : String) : String :=
  "\x7b\n    type: " ++ token ++ ",\n    name: " ++ name ++ ",\n    description: " ++ dsc ++
    ",\n    required: " ++ required ++ ",\n    choices: [" ++ choices ++ "]\n  \x7d,"

/-- The call expression that the claim expects from `slash_getoption`. -/
def getoptionCall (token name : String) : String :=
  "interaction.options.get" ++ token ++ "(" ++ name ++ ")"

/-- A `slash_getoption` block with the `String` token selected and a `slash_name`
block in its `name` socket. -/
def getoptionString : Block :=
  .mk "slash_getoption" [("type", "String")] true
    (.cons "name" (emptyBlock "slash_name") .nil) .null

/-- A `slash_reply` block whose `content` socket holds `getoptionString`. -/
def replyWithGetoption : Block :=
  .mk "slash_reply" [] true (.cons "content" getoptionString .nil) .null

/-- A `slash_create` block with `name` bound and the given inputs after it. -/
def createWith (more : Inputs) : Block :=
  .mk "slash_create" [] true (.cons "name" (emptyBlock "slash_name") more) .null

/-- The four expression kinds whose generator function returns a bare string. -/
def bareStringKinds : List String :=
  ["slash_server", "slash_channel", "slash_member", "slash_user"]

/-- A `slash_addoption` block with the token of the label `text` in its `type`
field. -/
def addoptionText : Block := .mk "slash_addoption" [("type", "3")] true .nil .null

/-- A `slash_getoption` block with the token of the label `text` in its `type`
field. -/
def getoptionText : Block := .mk "slash_getoption" [("type", "String")] true .nil .null

/-- The `slash_create` template with the socket codes in place; `perms` is the text
after `defaultMemberPermissions: `. -/
def createTemplate (name dsc nsfw perms options : String) : String :=
  "\x7b\n      name: " ++ name ++ ",\n      description: " ++ dsc ++ ",\n      nsfw: " ++ nsfw ++
    ",\n      defaultMemberPermissions: " ++ perms ++ ",\n      options: [" ++ options ++ "]\n    \x7d,"

/-- Whether the characters of `part` occur in `text` as one contiguous run. -/
def occursIn (part text : String) : Bool :=
  text.data.tails.any (fun t => part.data.isPrefixOf t)

/-- The `slash_editreply` template with the content code in place. -/
def editreplyTemplate (content : String) : String :=
  "interaction.editReply(\x7b\n    content: " ++ content ++ ",\n  \x7d);"

/-- The `slash_addchoice` template with the socket codes in place. -/
def addchoiceTemplate (name value : String) : String :=
  "\x7b\n    name: " ++ name ++ ",\n    value: " ++ value ++ "\n  \x7d,"

/-- The template shared by `slash_addsubcommand` (`type: 1`) and
`slash_addsubcommandgroup` (`type: 2`) with the socket codes in place. -/
def subcommandTemplate (type name dsc options : String) : String :=
  "\x7b\n    type: " ++ type ++ ",\n    name: " ++ name ++ ",\n    description: " ++ dsc ++
    ",\n    options: [" ++ options ++ "]\n  \x7d,"

/-- The `slash_received` template with the code of the `event` socket in place. -/
def receivedTemplate (event : String) : String :=
  "client.on(\"interactionCreate\", async (interaction) => \x7b\n          " ++ event ++ "\n      \x7d);"

/-- An enabled block without its next link: kind id, field values and bound
inputs. -/
structure Node where
  type : String
  fields : List (String × String)
  inputs : Inputs

/-- The enabled block of a node with the given next link. -/
def Node.block (n : Node) (next : Target) : Block :=
  .mk n.type n.fields true n.inputs next

/-- The statement chain of a list of nodes: each block's next link is the block of
the following node. -/
def chain : List Node → Target
  | [] => .null
  | n :: ns => .block (n.block (chain ns))

/-- Every newline of the text followed by `pre`. -/
def indentAll (pre : List Char) : List Char → List Char
  | [] => []
  | c :: rest => if c = '\n' then c :: (pre ++ indentAll pre rest) else c :: indentAll pre rest

/-- The kinds of slash.js with a previous and a next connection: the statement
blocks that can stand in a chain. -/
def chainableKinds : List String :=
  ["slash_createcontainer", "slash_create", "slash_addoption", "slash_addchoice",
   "slash_addsubcommandgroup", "slash_addsubcommand", "slash_reply", "slash_editreply"]

/-- The text with `pre` after every newline. -/
def indentEvery (text pre : String) : String :=
  String.mk (indentAll pre.data text.data)

/-- The text with `pre` after every newline except one that ends the text. -/
def indentLast (text pre : String) : String :=
  String.mk (javascriptGenerator.prefixLinesAux pre.data text.data)

/-- A `slash_name` block: an expression that generates `interaction.commandName`. -/
def nameBlock : Block := emptyBlock "slash_name"

/-- A `slash_reply` node whose `content` socket holds a `slash_name` block. -/
def replyNode : Node := ⟨"slash_reply", [], .cons "content" nameBlock .nil⟩

/-- A `slash_editreply` node whose `content` socket holds a `slash_name` block. -/
def editreplyNode : Node := ⟨"slash_editreply", [], .cons "content" nameBlock .nil⟩

/-- A `slash_createcontainer` node with nothing connected. -/
def containerNode : Node := ⟨"slash_createcontainer", [], .nil⟩

/-- `quote_(string)` of the JavaScript generator: backslash, newline and apostrophe
escaped, the whole between apostrophes. -/
def quote_ (string : String) : String :=
  "'" ++ String.mk (string.data.flatMap fun c =>
    if c = '\\' then ['\\', '\\']
    else if c = '\n' then ['\\', '\n']
    else if c = '\'' then ['\\', '\'']
    else [c]) ++ "'"

/-- The generator function `text` of `blockly/javascript`: the quoted `TEXT` field
with `Order.ATOMIC`. -/
def text : GeneratorFn := fun block _generator => do
  let code := quote_ (jsString (block.getFieldValue "TEXT"))
  return .tuple code Order.ATOMIC

/-- Entries of Blockly's own registries: the block definitions `text` (an output, no
input) and `controls_if_elseif` (a previous and a next connection, no input) of
`blockly/blocks`, and the generator function `text` of `blockly/javascript`, which
has no generator function for `controls_if_elseif`. -/
def blocklyLibrary : Library :=
  { Blocks := fun type =>
      if type = "text" then
        some { inputList := [], dropdowns := [], output := true,
               previousStatement := false, nextStatement := false }
      else if type = "controls_if_elseif" then
        some { inputList := [], dropdowns := [], output := false,
               previousStatement := true, nextStatement := true }
      else none
    forBlock := fun type => if type = "text" then some text else none }

/-- A `text` block with the given text. -/
def textBlock (value : String) : Block := .mk "text" [("TEXT", value)] true .nil .null

/-- A `slash_reply` node whose `content` socket holds a `text` block. -/
def replyTextNode : Node := ⟨"slash_reply", [], .cons "content" (textBlock "hi") .nil⟩

/-- A `controls_if_elseif` node: a kind with a block definition and a previous and
next connection in Blockly, and without generator function. -/
def unknownNode : Node := ⟨"controls_if_elseif", [], .nil⟩

/-- A workspace with two root chains: a `slash_received` block whose `event` socket
holds the chain reply → `controls_if_elseif` → edit reply, and a sibling
`slash_received` block whose `event` socket holds one reply. -/
def workspaceWithUnknown : List Block :=
  [receivedWith (replyNode.block (chain [unknownNode, editreplyNode])),
   receivedWith (replyNode.block .null)]

/-- The sibling chain of `workspaceWithUnknown` alone. -/
def workspaceWithoutUnknown : List Block :=
  [receivedWith (replyNode.block .null)]

/-- A workspace whose only root chain is reply → edit reply → create container. -/
def workspaceRootChain : List Block :=
  [replyNode.block (chain [editreplyNode, containerNode])]

/-- A workspace whose only root block is a `slash_received` block with the chain
reply → edit reply → create container in its `event` socket. -/
def workspaceNestedChain : List Block :=
  [receivedWith (replyNode.block (chain [editreplyNode, containerNode]))]

/-- The three replacements at the end of `workspaceToCode`. -/
def scrubWhitespace (codeString : String) : String :=
  String.mk (javascriptGenerator.stripLineEnds
    (javascriptGenerator.trimTrailingBlank (javascriptGenerator.dropLeadingBlank codeString.data)))

/-- The kind ids that slash.js assigns in `Blockly.Blocks`, in source order. -/
def declaredKinds : List String := Blockly.Blocks.map (fun entry => entry.1)

/-- The kind ids that slash.js assigns in `javascriptGenerator.forBlock`, in source
order. -/
def generatorKinds : List String := javascriptGenerator.forBlockTable.map (fun entry => entry.1)

/-- A result that, when it is the exception `unknownBlockType`, names a kind without
generator function. -/
def namesUnregistered {α : Type} (lib : Library) (r : Except GenError α) : Prop :=
  ∀ type : String, r = .error (.unknownBlockType type) →
    javascriptGenerator.forBlock lib type = none

/-- A library whose generator functions raise `unknownBlockType` only for kinds
without generator function, given that their calls into the generator do. -/
def Library.raisesUnknownOnlyFromCalls (lib : Library) : Prop :=
  ∀ (type : String) (func : GeneratorFn) (block : Block) (generator : Generator),
    lib.forBlock type = some func →
    (∀ name order, namesUnregistered lib (generator.valueToCode name order)) →
    (∀ name, namesUnregistered lib (generator.statementToCode name)) →
    namesUnregistered lib (func block generator)

/-- The text that `workspaceToCode` returns for `workspaceNestedChain`. -/
def nestedChainText : String :=
  "client.on(\"interactionCreate\", async (interaction) => \x7b\n            interaction.reply(\x7b\n      content: (interaction.commandName),\n      ephemeral:\n    \x7d);interaction.editReply(\x7b\n      content: (interaction.commandName),\n    \x7d);client.application.commands.set([\n\n    ]);\n      \x7d);"
/-! # Theorems -/

/-! ## Shared lemmas -/

theorem truthy_iff (s : String) : truthy s = true ↔ s ≠ "" := by
  simp [truthy]

theorem lookup_mem {β : Type} (tbl : List (String × β)) (k : String) (v : β)
    (h : tbl.lookup k = some v) : (k, v) ∈ tbl := by
  induction tbl with
  | nil => simp [List.lookup] at h
  | cons hd tl ih =>
    obtain ⟨a, b⟩ := hd
    by_cases hk : k = a
    · subst hk
      simp [List.lookup] at h
      simp [h]
    · have hb : (k == a) = false := by simpa using hk
      simp [List.lookup, hb] at h
      exact List.mem_cons_of_mem _ (ih h)

/-! ## C2: the two variants of `slash_createcontainer` -/

/-- C2. For a `slash_createcontainer` block whose `guild` socket generates `g` and
whose `commands` socket generates `c`: the generator function returns the global
variant `client.application.commands.set([ c ]);` when `g` is empty and the guild
variant `client.guilds.cache.get(g).commands.set([ c ]);` when `g` is not empty; it
returns a string in either case, never `undefined`, and which variant it returns is
decided by the emptiness of `g` alone. -/
theorem slash_createcontainer_variants (block : Block) (generator : Generator) (g c : String)
    (hg : generator.valueToCode "guild" Order.ATOMIC = .ok g)
    (hc : generator.statementToCode "commands" = .ok c) :
    (g = "" → slash_createcontainer block generator = .ok (.code (globalVariant c))) ∧
    (g ≠ "" → slash_createcontainer block generator = .ok (.code (guildVariant g c))) ∧
    slash_createcontainer block generator ≠ .ok .undefined ∧
    slash_createcontainer block generator =
      .ok (.code (if g = "" then globalVariant c else guildVariant g c)) := by
  have key : slash_createcontainer block generator =
      .ok (.code (if g = "" then globalVariant c else guildVariant g c)) := by
    by_cases h : g = ""
    · subst h
      simp [slash_createcontainer, hg, hc, bind, Except.bind, truthy, pure, Except.pure,
        globalVariant, toString]
    · have ht : truthy g = true := (truthy_iff g).2 h
      simp [slash_createcontainer, hg, hc, bind, Except.bind, ht, h, pure, Except.pure,
        guildVariant, toString]
  refine ⟨?_, ?_, ?_, key⟩
  · intro h; rw [key, if_pos h]
  · intro h; rw [key, if_neg h]
  · rw [key]; intro h; cases h

theorem slash_createcontainer_variants_witness :
    slash_createcontainer (emptyBlock "slash_createcontainer") (constGenerator "\"42\"" "") =
      .ok (.code "client.guilds.cache.get(\"42\").commands.set([\n    \n  ]);") :=
  ((slash_createcontainer_variants (emptyBlock "slash_createcontainer")
    (constGenerator "\"42\"" "") "\"42\"" "" rfl rfl).2.1 (by decide))

/-! ## C1: `slash_reply` with a `slash_user` block in `content` -/

/-- C1 (the code departs from the claim). The `slash_reply` template puts the content
code in the content position, and the `slash_user` function produces
`interaction.member.user`; but it returns that text as a bare string, not as a
`[code, order]` pair, so `valueToCode` rejects it: generating a `slash_reply` block
whose `content` socket holds a `slash_user` block raises a `TypeError`, and so do
`workspaceToCode` and the change listener for a workspace that contains it in the
`event` socket of a `slash_received` root block, which `disableOrphans` leaves
enabled; this holds whatever the library registers. -/
theorem reply_with_user_raises :
    (∀ (block : Block) (generator : Generator) (e : String),
      generator.valueToCode "content" Order.ATOMIC = .ok "interaction.member.user" →
      generator.valueToCode "ephemeral" Order.ATOMIC = .ok e →
      slash_reply block generator = .ok (.code (replyTemplate "interaction.member.user" e))) ∧
    (∀ lib : Library,
      javascriptGenerator.ownCode lib (emptyBlock "slash_user") =
        .ok (.code "interaction.member.user") ∧
      javascriptGenerator.blockToCode lib replyWithUser = .error (.expectingTuple "slash_user") ∧
      javascriptGenerator.workspaceToCode lib [receivedWith replyWithUser] =
        .error (.expectingTuple "slash_user") ∧
      changeListener lib [receivedWith replyWithUser] = .error (.expectingTuple "slash_user") ∧
      Blockly.Events.disableOrphans lib [receivedWith replyWithUser] =
        [receivedWith replyWithUser]) := by
  refine ⟨?_, fun lib => ⟨rfl, rfl, rfl, rfl, rfl⟩⟩
  intro block generator e hc he
  simp [slash_reply, hc, he, bind, Except.bind, pure, Except.pure, replyTemplate, toString]

/-! ## C3: dropdown tokens -/

/-- C3. Selecting a label in the `type` dropdown of a `slash_addoption` block sets the
field to the token paired with that label in the `slash_addoption` table, the token
differs from the label, and the generator function emits it after `type: `;
selecting a label in the `type` dropdown of a `slash_getoption` block sets the field
to the token paired with it in the `slash_getoption` table, the token differs from
the label, and the generator function emits it in `interaction.options.get<token>(`.
For the label `text` the tokens are `3` and `String`. -/
theorem dropdown_token_independence :
    (∀ (label token : String) (block : Block) (generator : Generator) (n d r c : String),
      Blockly.FieldDropdown.select Blockly.slash_addoption_type label = some token →
      block.getFieldValue "type" = some token →
      generator.valueToCode "name" Order.ATOMIC = .ok n →
      generator.valueToCode "dsc" Order.ATOMIC = .ok d →
      generator.valueToCode "required" Order.ATOMIC = .ok r →
      generator.statementToCode "choices" = .ok c →
      slash_addoption block generator = .ok (.code (addoptionTemplate token n d r c)) ∧
      token ≠ label ∧ (label, token) ∈ Blockly.slash_addoption_type) ∧
    (∀ (label token : String) (block : Block) (generator : Generator) (n : String),
      Blockly.FieldDropdown.select Blockly.slash_getoption_type label = some token →
      block.getFieldValue "type" = some token →
      generator.valueToCode "name" Order.ATOMIC = .ok n →
      slash_getoption block generator =
        .ok (.tuple ("interaction.options.get" ++ token ++ "(" ++ n ++ ");") Order.NONE) ∧
      token ≠ label ∧ (label, token) ∈ Blockly.slash_getoption_type) ∧
    Blockly.FieldDropdown.select Blockly.slash_addoption_type "text" = some "3" ∧
    Blockly.FieldDropdown.select Blockly.slash_getoption_type "text" = some "String" := by
  refine ⟨?_, ?_, rfl, rfl⟩
  · intro label token block generator n d r c hsel hf hn hd hr hc
    refine ⟨?_, ?_, ?_⟩
    · simp [slash_addoption, hf, hn, hd, hr, hc, bind, Except.bind, pure, Except.pure,
        addoptionTemplate, toString, jsString]
    · have hm := lookup_mem _ _ _ hsel
      simp [Blockly.slash_addoption_type] at hm
      rcases hm with h | h | h | h | h | h | h | h | h <;> obtain ⟨h1, h2⟩ := h <;>
        subst h1 <;> subst h2 <;> decide
    · exact lookup_mem _ _ _ hsel
  · intro label token block generator n hsel hf hn
    refine ⟨?_, ?_, ?_⟩
    · simp [slash_getoption, hf, hn, bind, Except.bind, pure, Except.pure, toString, jsString]
    · have hm := lookup_mem _ _ _ hsel
      simp [Blockly.slash_getoption_type] at hm
      rcases hm with h | h | h | h | h | h | h | h | h | h | h | h <;> obtain ⟨h1, h2⟩ := h <;>
        subst h1 <;> subst h2 <;> decide
    · exact lookup_mem _ _ _ hsel

theorem dropdown_token_independence_witness :
    slash_addoption addoptionText (constGenerator "x" "") =
      .ok (.code (addoptionTemplate "3" "x" "x" "x" "")) ∧
    slash_getoption getoptionText (constGenerator "x" "") =
      .ok (.tuple "interaction.options.getString(x);" Order.NONE) :=
  ⟨(dropdown_token_independence.1 "text" "3" addoptionText (constGenerator "x" "")
      "x" "x" "x" "" rfl rfl rfl rfl rfl rfl).1,
   (dropdown_token_independence.2.1 "text" "String" getoptionText (constGenerator "x" "")
      "x" rfl rfl rfl).1⟩

/-! ## C4: what the expression generators return -/

/-- C4 (the code departs from the claim). Of the six expression kinds only
`slash_name` and `slash_getoption` return a `[code, order]` pair.  The functions of
`slash_server`, `slash_channel`, `slash_member` and `slash_user` return a bare
string, and `valueToCode` raises a `TypeError` for every socket that holds an
enabled block of one of these four kinds. -/
theorem expression_generators_results :
    (∀ (block : Block) (generator : Generator),
      slash_name block generator = .ok (.tuple "interaction.commandName" Order.NONE) ∧
      slash_server block generator = .ok (.code "interaction.guild") ∧
      slash_channel block generator = .ok (.code "interaction.channel") ∧
      slash_member block generator = .ok (.code "interaction.member") ∧
      slash_user block generator = .ok (.code "interaction.member.user")) ∧
    (∀ (block : Block) (generator : Generator) (n : String),
      generator.valueToCode "name" Order.ATOMIC = .ok n →
      ∃ code, slash_getoption block generator = .ok (.tuple code Order.NONE)) ∧
    (∀ kind ∈ bareStringKinds, ∀ (lib : Library) (target : Block) (type name : String)
        (outerOrder : Order),
      target.type = kind → target.enabled = true →
      javascriptGenerator.valueToCode lib type
        [(name, kind, javascriptGenerator.blockToCode lib target)] name outerOrder =
        .error (.expectingTuple kind)) := by
  refine ⟨fun _ _ => ⟨rfl, rfl, rfl, rfl, rfl⟩, ?_, ?_⟩
  · intro block generator n hn
    simp [slash_getoption, hn, bind, Except.bind, pure, Except.pure]
  · intro kind hk lib target type name outerOrder ht hen
    obtain ⟨t, f, e, i, nx⟩ := target
    simp only [Block.type] at ht
    simp only [Block.enabled] at hen
    subst ht
    subst hen
    simp only [bareStringKinds, List.mem_cons, List.mem_singleton, List.not_mem_nil,
      or_false] at hk
    rcases hk with h | h | h | h <;> subst h <;>
      simp [javascriptGenerator.valueToCode, List.lookup, javascriptGenerator.blockToCode] <;> rfl

/-! ## C5: the value sockets of `slash_create` -/

/-- C5 (the code departs from the claim). The `slash_create` function reads the
sockets `name`, `dsc`, `options`, `nsfw` and `perms` and never the declared socket
`dm`: two generators that agree on those five sockets give the same fragment
whatever `dm` generates, and a block with a `slash_name` block in `dm` generates the
same text as the block without it, in which the code of `dm` does not occur. -/
theorem slash_create_ignores_dm :
    (∀ lib : Library, Blockly.hasInput lib "slash_create" "dm" = true) ∧
    (∀ (block : Block) (g1 g2 : Generator),
      (∀ name order, name ≠ "dm" → g1.valueToCode name order = g2.valueToCode name order) →
      g1.statementToCode = g2.statementToCode →
      slash_create block g1 = slash_create block g2) ∧
    (∀ lib : Library,
      javascriptGenerator.blockToCode lib (createWith (.cons "dm" (emptyBlock "slash_name") .nil)) =
        javascriptGenerator.blockToCode lib (createWith .nil) ∧
      javascriptGenerator.blockToCode lib (createWith (.cons "dm" (emptyBlock "slash_name") .nil)) =
        .ok (.str (createTemplate "(interaction.commandName)" "" "" "[]" ""))) ∧
    occursIn "dm" (createTemplate "(interaction.commandName)" "" "" "[]" "") = false := by
  refine ⟨fun _ => rfl, ?_, fun _ => ⟨rfl, rfl⟩, by decide⟩
  intro block g1 g2 hv hs
  simp [slash_create, hs, hv "name" Order.ATOMIC (by decide), hv "dsc" Order.ATOMIC (by decide),
    hv "nsfw" Order.ATOMIC (by decide), hv "perms" Order.ATOMIC (by decide)]

/-! ## C9: the fragment of `slash_getoption` -/

/-- C9 (the code departs from the claim). For every token `T` in the `type` field
and every name code `n`, the fragment of `slash_getoption` is the call expression
`interaction.options.getT(n)` followed by a statement terminator `;`.  Embedded as
`content` of a `slash_reply` block the terminator stands inside the object
literal. -/
theorem slash_getoption_has_terminator :
    (∀ (block : Block) (generator : Generator) (T n : String),
      block.getFieldValue "type" = some T →
      generator.valueToCode "name" Order.ATOMIC = .ok n →
      slash_getoption block generator = .ok (.tuple (getoptionCall T n ++ ";") Order.NONE)) ∧
    (∀ lib : Library, javascriptGenerator.blockToCode lib replyWithGetoption =
      .ok (.str (replyTemplate "(interaction.options.getString((interaction.commandName));)" ""))) := by
  refine ⟨?_, fun _ => rfl⟩
  intro block generator T n hf hn
  simp [slash_getoption, hf, hn, bind, Except.bind, pure, Except.pure, getoptionCall, toString,
    jsString]
  simp only [String.append_assoc]
  rfl

/-! ## C7: the text written by the change listener -/

/-- C7. For every workspace and every library, when `workspaceToCode` returns the generated code, the
change listener writes the fixed preamble, then the generated code unchanged, then a
newline and six spaces; the preamble is a constant that does not mention the
workspace.  When `workspaceToCode` raises, the listener raises before it writes. -/
theorem listener_writes_preamble_then_code (lib : Library) (workspace : List Block) :
    changeListener lib workspace =
      (match javascriptGenerator.workspaceToCode lib workspace with
       | .ok generated => .ok (preamble ++ generated ++ "\n      ")
       | .error e => .error e) ∧
    (∀ js, changeListener lib workspace = .ok js →
      ∃ generated, javascriptGenerator.workspaceToCode lib workspace = .ok generated ∧
        js = preamble ++ (generated ++ "\n      ") ∧ preamble.data <+: js.data) := by
  have key : changeListener lib workspace =
      (match javascriptGenerator.workspaceToCode lib workspace with
       | .ok generated => .ok (preamble ++ generated ++ "\n      ")
       | .error e => .error e) := by
    unfold changeListener
    cases javascriptGenerator.workspaceToCode lib workspace with
    | error e => rfl
    | ok generated =>
      simp [bind, Except.bind, pure, Except.pure, preamble, toString]
  refine ⟨key, ?_⟩
  intro js hjs
  rw [key] at hjs
  cases hw : javascriptGenerator.workspaceToCode lib workspace with
  | error e => rw [hw] at hjs; cases hjs
  | ok generated =>
    rw [hw] at hjs
    simp only [Except.ok.injEq] at hjs
    refine ⟨generated, rfl, ?_, ?_⟩
    · rw [← hjs, String.append_assoc]
    · rw [← hjs, String.append_assoc]
      exact ⟨_, rfl⟩

/-! ## C6: unbound value sockets -/

theorem inputsToCode_lookup_none (lib : Library) : ∀ (inputs : Inputs) (name : String),
    inputs.find name = none → (javascriptGenerator.inputsToCode lib inputs).lookup name = none
  | .nil, _, _ => by simp [javascriptGenerator.inputsToCode, List.lookup]
  | .cons n target rest, name, h => by
    by_cases hn : n = name
    · simp [Inputs.find, hn] at h
    · simp [Inputs.find, hn] at h
      have hb : (name == n) = false := by
        simpa using fun h2 : name = n => hn h2.symm
      simp [javascriptGenerator.inputsToCode, List.lookup, hb,
        inputsToCode_lookup_none lib rest name h]

theorem slash_createcontainer_eq (block : Block) (generator : Generator) (g c : String)
    (hg : generator.valueToCode "guild" Order.ATOMIC = .ok g)
    (hc : generator.statementToCode "commands" = .ok c) :
    slash_createcontainer block generator =
      .ok (.code (if g = "" then globalVariant c else guildVariant g c)) := by
  by_cases h : g = ""
  · subst h
    simp [slash_createcontainer, hg, hc, bind, Except.bind, truthy, pure, Except.pure,
      globalVariant, toString]
  · have ht : truthy g = true := (truthy_iff g).2 h
    simp [slash_createcontainer, hg, hc, bind, Except.bind, ht, h, pure, Except.pure,
      guildVariant, toString]

theorem slash_create_eq (block : Block) (generator : Generator) (n d o s p : String)
    (hn : generator.valueToCode "name" Order.ATOMIC = .ok n)
    (hd : generator.valueToCode "dsc" Order.ATOMIC = .ok d)
    (ho : generator.statementToCode "options" = .ok o)
    (hs : generator.valueToCode "nsfw" Order.ATOMIC = .ok s)
    (hp : generator.valueToCode "perms" Order.ATOMIC = .ok p) :
    slash_create block generator =
      .ok (.code (createTemplate n d s (if p = "" then "[]" else p) o)) := by
  by_cases h : p = ""
  · subst h
    simp [slash_create, hn, hd, ho, hs, hp, bind, Except.bind, pure, Except.pure,
      createTemplate, toString, jsOr, truthy]
  · have ht : truthy p = true := (truthy_iff p).2 h
    simp [slash_create, hn, hd, ho, hs, hp, bind, Except.bind, pure, Except.pure,
      createTemplate, toString, jsOr, ht, h]

/-- C6. An unbound value socket never fails generation and leaves the empty string
at its position.  (1) For every block and every input that its kind declares, when
nothing is connected to the input `valueToCode` returns the empty string.  (2) For
every generator argument, each statement generator of the module returns its
template with the code of each value socket at the socket's position, whatever the
other sockets generate, so a socket whose code is the empty string leaves a gap
there; the one exception is `slash_create`, which writes `[]` after
`defaultMemberPermissions: ` exactly when the code of `perms` is empty and the code
of `perms` unchanged otherwise.  (3) With every value socket unbound each statement
generator returns its template with all gaps empty and `[]` for `perms`. -/
theorem unbound_sockets_emit_placeholder :
    (∀ (lib : Library) (block : Block) (name : String) (outerOrder : Order),
      Blockly.hasInput lib block.type name = true → block.inputs.find name = none →
      (javascriptGenerator.generatorFor lib block.type
        (javascriptGenerator.inputsToCode lib block.inputs)).valueToCode name outerOrder =
          .ok "") ∧
    (∀ (block : Block) (generator : Generator),
      (∀ c : String, generator.valueToCode "content" Order.ATOMIC = .ok c →
        slash_editreply block generator = .ok (.code (editreplyTemplate c))) ∧
      (∀ c e : String, generator.valueToCode "content" Order.ATOMIC = .ok c →
        generator.valueToCode "ephemeral" Order.ATOMIC = .ok e →
        slash_reply block generator = .ok (.code (replyTemplate c e))) ∧
      (∀ g c : String, generator.valueToCode "guild" Order.ATOMIC = .ok g →
        generator.statementToCode "commands" = .ok c →
        slash_createcontainer block generator =
          .ok (.code (if g = "" then globalVariant c else guildVariant g c))) ∧
      (∀ n d o s p : String, generator.valueToCode "name" Order.ATOMIC = .ok n →
        generator.valueToCode "dsc" Order.ATOMIC = .ok d →
        generator.statementToCode "options" = .ok o →
        generator.valueToCode "nsfw" Order.ATOMIC = .ok s →
        generator.valueToCode "perms" Order.ATOMIC = .ok p →
        slash_create block generator =
          .ok (.code (createTemplate n d s (if p = "" then "[]" else p) o))) ∧
      (∀ n d r c : String, generator.valueToCode "name" Order.ATOMIC = .ok n →
        generator.valueToCode "dsc" Order.ATOMIC = .ok d →
        generator.valueToCode "required" Order.ATOMIC = .ok r →
        generator.statementToCode "choices" = .ok c →
        slash_addoption block generator =
          .ok (.code (addoptionTemplate (jsString (block.getFieldValue "type")) n d r c))) ∧
      (∀ n v : String, generator.valueToCode "name" Order.ATOMIC = .ok n →
        generator.valueToCode "value" Order.ATOMIC = .ok v →
        slash_addchoice block generator = .ok (.code (addchoiceTemplate n v))) ∧
      (∀ n d o : String, generator.valueToCode "name" Order.ATOMIC = .ok n →
        generator.valueToCode "dsc" Order.ATOMIC = .ok d →
        generator.statementToCode "options" = .ok o →
        slash_addsubcommand block generator = .ok (.code (subcommandTemplate "1" n d o))) ∧
      (∀ n d o : String, generator.valueToCode "name" Order.ATOMIC = .ok n →
        generator.valueToCode "dsc" Order.ATOMIC = .ok d →
        generator.statementToCode "subcommands" = .ok o →
        slash_addsubcommandgroup block generator =
          .ok (.code (subcommandTemplate "2" n d o)))) ∧
    (∀ (lib : Library) (fields : List (String × String)) (enabled : Bool) (next : Target),
      javascriptGenerator.ownCode lib (.mk "slash_editreply" fields enabled .nil next) =
        .ok (.code (editreplyTemplate "")) ∧
      javascriptGenerator.ownCode lib (.mk "slash_reply" fields enabled .nil next) =
        .ok (.code (replyTemplate "" "")) ∧
      javascriptGenerator.ownCode lib (.mk "slash_createcontainer" fields enabled .nil next) =
        .ok (.code (globalVariant "")) ∧
      javascriptGenerator.ownCode lib (.mk "slash_create" fields enabled .nil next) =
        .ok (.code (createTemplate "" "" "" "[]" "")) ∧
      javascriptGenerator.ownCode lib (.mk "slash_addoption" fields enabled .nil next) =
        .ok (.code (addoptionTemplate (jsString (fields.lookup "type")) "" "" "" "")) ∧
      javascriptGenerator.ownCode lib (.mk "slash_addchoice" fields enabled .nil next) =
        .ok (.code (addchoiceTemplate "" "")) ∧
      javascriptGenerator.ownCode lib (.mk "slash_addsubcommand" fields enabled .nil next) =
        .ok (.code (subcommandTemplate "1" "" "" "")) ∧
      javascriptGenerator.ownCode lib (.mk "slash_addsubcommandgroup" fields enabled .nil next) =
        .ok (.code (subcommandTemplate "2" "" "" ""))) := by
  refine ⟨?_, ?_, ?_⟩
  · intro lib block name outerOrder hin hfind
    simp [javascriptGenerator.generatorFor, javascriptGenerator.valueToCode,
      inputsToCode_lookup_none lib _ _ hfind, hin]
    rfl
  · intro block generator
    refine ⟨?_, ?_, ?_, ?_, ?_, ?_, ?_, ?_⟩
    · intro c hc
      simp [slash_editreply, hc, bind, Except.bind, pure, Except.pure, editreplyTemplate,
        toString]
    · intro c e hc he
      simp [slash_reply, hc, he, bind, Except.bind, pure, Except.pure, replyTemplate, toString]
    · intro g c hg hc
      exact slash_createcontainer_eq block generator g c hg hc
    · intro n d o s p hn hd ho hs hp
      exact slash_create_eq block generator n d o s p hn hd ho hs hp
    · intro n d r c hn hd hr hc
      simp [slash_addoption, hn, hd, hr, hc, bind, Except.bind, pure, Except.pure,
        addoptionTemplate, toString]
    · intro n v hn hv
      simp [slash_addchoice, hn, hv, bind, Except.bind, pure, Except.pure, addchoiceTemplate,
        toString]
    · intro n d o hn hd ho
      simp [slash_addsubcommand, hn, hd, ho, bind, Except.bind, pure, Except.pure,
        subcommandTemplate, toString]
    · intro n d o hn hd ho
      simp [slash_addsubcommandgroup, hn, hd, ho, bind, Except.bind, pure, Except.pure,
        subcommandTemplate, toString]
  · intro lib fields enabled next
    exact ⟨rfl, rfl, rfl, rfl, rfl, rfl, rfl, rfl⟩

theorem unbound_sockets_emit_placeholder_witness :
    (javascriptGenerator.generatorFor Library.empty "slash_reply"
      (javascriptGenerator.inputsToCode Library.empty
        (Inputs.cons "content" (emptyBlock "slash_name") .nil))).valueToCode
        "ephemeral" Order.ATOMIC = .ok "" ∧
    slash_addchoice (emptyBlock "slash_addchoice")
        (javascriptGenerator.generatorFor blocklyLibrary "slash_addchoice"
          (javascriptGenerator.inputsToCode blocklyLibrary
            (Inputs.cons "name" (textBlock "n") .nil))) =
      .ok (.code (addchoiceTemplate "'n'" "")) ∧
    slash_create (emptyBlock "slash_create") (constGenerator "x" "") =
      .ok (.code (createTemplate "x" "x" "x" "x" "")) :=
  ⟨unbound_sockets_emit_placeholder.1 Library.empty
      (.mk "slash_reply" [] true (.cons "content" (emptyBlock "slash_name") .nil) .null)
      "ephemeral" Order.ATOMIC rfl rfl,
   (unbound_sockets_emit_placeholder.2.1 (emptyBlock "slash_addchoice")
      (javascriptGenerator.generatorFor blocklyLibrary "slash_addchoice"
        (javascriptGenerator.inputsToCode blocklyLibrary
          (Inputs.cons "name" (textBlock "n") .nil)))).2.2.2.2.2.1 "'n'" "" rfl rfl,
   (unbound_sockets_emit_placeholder.2.1 (emptyBlock "slash_create")
      (constGenerator "x" "")).2.2.2.1 "x" "x" "" "x" "x" rfl rfl rfl rfl rfl⟩

/-! ## Chains of statement blocks -/

theorem forBlock_mem (type : String) (func : GeneratorFn)
    (h : javascriptGenerator.forBlockTable.lookup type = some func) :
    (type, func) ∈ javascriptGenerator.forBlockTable :=
  lookup_mem _ _ _ h

theorem forBlock_slash (lib : Library) (type : String) (func : GeneratorFn)
    (h : javascriptGenerator.forBlockTable.lookup type = some func) :
    javascriptGenerator.forBlock lib type = some func := by
  simp [javascriptGenerator.forBlock, h]

/-- A generator function of slash.js does not look at the next link of its block. -/
theorem func_next_irrelevant (type : String) (func : GeneratorFn)
    (h : javascriptGenerator.forBlockTable.lookup type = some func)
    (t : String) (f : List (String × String)) (e : Bool) (i : Inputs) (n1 n2 : Target)
    (g : Generator) :
    func (.mk t f e i n1) g = func (.mk t f e i n2) g := by
  have hm := forBlock_mem type func h
  simp only [javascriptGenerator.forBlockTable, List.mem_cons, Prod.mk.injEq,
    List.mem_singleton, List.not_mem_nil, or_false] at hm
  rcases hm with h | h | h | h | h | h | h | h | h | h | h | h | h | h | h <;>
    obtain ⟨_, h2⟩ := h <;> subst h2 <;> rfl

theorem blockToCode_eq (lib : Library) (t : String) (f : List (String × String)) (i : Inputs)
    (next : Target) (func : GeneratorFn)
    (hf : javascriptGenerator.forBlockTable.lookup t = some func) :
    javascriptGenerator.blockToCode lib (.mk t f true i next) =
      (javascriptGenerator.ownCode lib (.mk t f true i .null)).bind
        (fun result => javascriptGenerator.finishBlock lib t result
          (javascriptGenerator.targetToCode lib next)) := by
  rw [javascriptGenerator.blockToCode]
  simp only [javascriptGenerator.ownCode, Block.type, Block.inputs, forBlock_slash lib t func hf,
    Bool.not_true, Bool.false_eq_true, if_false, bind]
  rw [func_next_irrelevant t func hf t f true i next .null]

theorem append_ne_empty (x y : String) (h : x ≠ "") : x ++ y ≠ "" := by
  intro e
  have hl := congrArg String.length e
  simp at hl
  have hx : x.data = [] := List.length_eq_zero.mp hl.1
  exact h (String.ext hx)

/-- The chainable kinds of slash.js have a generator function in slash.js, a previous
and a next connection and no output connection, whatever the library registers. -/
theorem chainable_facts (lib : Library) (type : String) (h : type ∈ chainableKinds) :
    (∃ func, javascriptGenerator.forBlockTable.lookup type = some func) ∧
    Blockly.hasNext lib type = true ∧ Blockly.hasPrevious lib type = true ∧
    Blockly.hasOutput lib type = false := by
  simp only [chainableKinds, List.mem_cons, List.mem_singleton, List.not_mem_nil, or_false] at h
  rcases h with h | h | h | h | h | h | h | h <;> subst h <;> exact ⟨⟨_, rfl⟩, rfl, rfl, rfl⟩

/-- One step along a chain: the code of an enabled block of a chainable kind is its
own fragment followed by the code of what is connected to it. -/
theorem blockToCode_step (lib : Library) (n : Node) (next : Target) (a rest : String)
    (hk : n.type ∈ chainableKinds)
    (hA : javascriptGenerator.ownCode lib (n.block .null) = .ok (.code a))
    (hrest : javascriptGenerator.targetToCode lib next = .ok (.str rest)) :
    javascriptGenerator.blockToCode lib (n.block next) = .ok (.str (a ++ rest)) := by
  obtain ⟨⟨func, hf⟩, hn, _, _⟩ := chainable_facts lib n.type hk
  unfold Node.block at hA ⊢
  rw [blockToCode_eq lib _ _ _ _ func hf, hA]
  simp [Except.bind, javascriptGenerator.finishBlock, hn, hrest, bind, pure, Except.pure,
    GenValue.toJSString]

theorem ownCode_ne_empty (lib : Library) (n : Node) (a : String)
    (hn : n.type ∈ chainableKinds)
    (hA : javascriptGenerator.ownCode lib (n.block .null) = .ok (.code a)) : a ≠ "" := by
  obtain ⟨type, fields, inputs⟩ := n
  simp only [chainableKinds, List.mem_cons, List.mem_singleton, List.not_mem_nil, or_false] at hn
  rcases hn with h | h | h | h | h | h | h | h <;> subst h
  all_goals
    simp only [javascriptGenerator.ownCode, Node.block, Block.type, Block.inputs,
      javascriptGenerator.forBlock, javascriptGenerator.forBlockTable, List.lookup] at hA
  all_goals
    simp [slash_createcontainer, slash_create, slash_addoption, slash_addchoice,
      slash_addsubcommandgroup, slash_addsubcommand, slash_reply, slash_editreply,
      bind, Except.bind, pure, Except.pure, toString] at hA
  all_goals repeat' split at hA
  all_goals cases hA
  all_goals repeat apply append_ne_empty
  all_goals decide

theorem prefixLinesAux_append (pre x y : List Char) (hy : y ≠ []) :
    javascriptGenerator.prefixLinesAux pre (x ++ y) =
      indentAll pre x ++ javascriptGenerator.prefixLinesAux pre y := by
  induction x with
  | nil => simp [indentAll]
  | cons c x ih =>
    have hxy : x ++ y ≠ [] := by simp [hy]
    by_cases hc : c = '\n'
    · simp [javascriptGenerator.prefixLinesAux, indentAll, hc, hxy, ih]
    · simp [javascriptGenerator.prefixLinesAux, indentAll, hc, ih]

theorem data_ne_nil (s : String) (h : s ≠ "") : s.data ≠ [] :=
  fun hd => h (String.ext hd)

/-- Indenting a concatenation of three fragments indents each fragment in place. -/
theorem prefixLines_append3 (a b c pre : String) (hb : b ≠ "") (hc : c ≠ "") :
    javascriptGenerator.prefixLines (a ++ b ++ c) pre =
      pre ++ (indentEvery a pre ++ (indentEvery b pre ++ indentLast c pre)) := by
  have hbc : b.data ++ c.data ≠ [] := by simp [data_ne_nil b hb]
  apply String.ext
  simp only [javascriptGenerator.prefixLines, indentEvery, indentLast, String.data_append,
    List.append_assoc]
  rw [prefixLinesAux_append pre.data a.data _ hbc,
    prefixLinesAux_append pre.data b.data _ (data_ne_nil c hc)]

/-- An enabled `slash_received` block wraps the indented code of its `event`
socket. -/
theorem received_wraps (lib : Library) (f : List (String × String)) (nx : Target) (body : Block)
    (s : String)
    (hX : javascriptGenerator.blockToCode lib body = .ok (.str s)) (hs : s ≠ "") :
    javascriptGenerator.blockToCode lib (.mk "slash_received" f true (.cons "event" body .nil) nx) =
      .ok (.str (receivedTemplate (javascriptGenerator.prefixLines s javascriptGenerator.INDENT))) := by
  have h1 : Blockly.hasNext lib "slash_received" = false := rfl
  have h2 : javascriptGenerator.forBlock lib "slash_received" = some slash_received := rfl
  have ht : truthy s = true := (truthy_iff s).2 hs
  rw [javascriptGenerator.blockToCode]
  simp [h2, javascriptGenerator.inputsToCode, javascriptGenerator.generatorFor, slash_received,
    javascriptGenerator.statementToCode, List.lookup, hX, ht, javascriptGenerator.finishBlock, h1,
    bind, Except.bind, pure, Except.pure, receivedTemplate, toString]

/-- An enabled `slash_createcontainer` block with an unbound `guild` socket wraps the
indented code of its `commands` socket in the global variant. -/
theorem createcontainer_wraps (lib : Library) (f : List (String × String)) (body : Block)
    (s : String)
    (hX : javascriptGenerator.blockToCode lib body = .ok (.str s)) (hs : s ≠ "") :
    javascriptGenerator.blockToCode lib
        (.mk "slash_createcontainer" f true (.cons "commands" body .nil) .null) =
      .ok (.str (globalVariant (javascriptGenerator.prefixLines s javascriptGenerator.INDENT))) := by
  have h1 : Blockly.hasNext lib "slash_createcontainer" = true := rfl
  have h2 : javascriptGenerator.forBlock lib "slash_createcontainer" =
      some slash_createcontainer := rfl
  have h3 : Blockly.hasInput lib "slash_createcontainer" "guild" = true := rfl
  have ht : truthy s = true := (truthy_iff s).2 hs
  have hempty : truthy "" = false := rfl
  rw [javascriptGenerator.blockToCode]
  simp [h2, javascriptGenerator.inputsToCode, javascriptGenerator.generatorFor,
    slash_createcontainer, javascriptGenerator.valueToCode, h3, hempty,
    javascriptGenerator.statementToCode, List.lookup, hX, ht, javascriptGenerator.finishBlock, h1,
    javascriptGenerator.targetToCode, GenValue.toJSString,
    bind, Except.bind, pure, Except.pure, globalVariant, toString]

theorem workspaceToCode_eq (lib : Library) (workspace : List Block) :
    javascriptGenerator.workspaceToCode lib workspace =
      (match javascriptGenerator.topBlocksToCode lib workspace with
       | .ok code => .ok (scrubWhitespace (javascriptGenerator.finish ("\n".intercalate code)))
       | .error e => .error e) := by
  unfold javascriptGenerator.workspaceToCode
  cases javascriptGenerator.topBlocksToCode lib workspace with
  | error e => rfl
  | ok code => rfl

theorem changeListener_eq (lib : Library) (workspace : List Block) :
    changeListener lib workspace =
      (match javascriptGenerator.topBlocksToCode lib workspace with
       | .ok code => .ok (preamble ++
          scrubWhitespace (javascriptGenerator.finish ("\n".intercalate code)) ++ "\n      ")
       | .error e => .error e) := by
  unfold changeListener
  rw [workspaceToCode_eq]
  cases javascriptGenerator.topBlocksToCode lib workspace with
  | error e => rfl
  | ok code => simp [bind, Except.bind, pure, Except.pure, preamble, toString]

/-- A root `slash_received` block contributes its code as one line. -/
theorem received_root_line (lib : Library) (body : Block) (s : String)
    (hX : javascriptGenerator.blockToCode lib body = .ok (.str s)) (hs : s ≠ "") :
    javascriptGenerator.topBlocksToCode lib [receivedWith body] =
      .ok [receivedTemplate (javascriptGenerator.prefixLines s javascriptGenerator.INDENT)] := by
  have hw := received_wraps lib [] .null body s hX hs
  have ho : Blockly.hasOutput lib (receivedWith body).type = false := rfl
  have hne : receivedTemplate (javascriptGenerator.prefixLines s javascriptGenerator.INDENT) ≠ "" := by
    unfold receivedTemplate
    exact append_ne_empty _ _ (append_ne_empty _ _ (by decide))
  have ht := (truthy_iff _).2 hne
  unfold receivedWith at ho ⊢
  simp [javascriptGenerator.topBlocksToCode, hw, ht, ho, bind, Except.bind, pure, Except.pure]

/-- A root chain of three blocks of chainable kinds, once `disableOrphans` has acted,
contributes no line. -/
theorem root_chain_disabled (lib : Library) (A B C : Node)
    (kA : A.type ∈ chainableKinds) (kB : B.type ∈ chainableKinds)
    (kC : C.type ∈ chainableKinds) :
    javascriptGenerator.topBlocksToCode lib
      (Blockly.Events.disableOrphans lib [A.block (chain [B, C])]) = .ok [] := by
  obtain ⟨_, nA, pA, _⟩ := chainable_facts lib A.type kA
  obtain ⟨_, nB, _, _⟩ := chainable_facts lib B.type kB
  obtain ⟨_, nC, _, _⟩ := chainable_facts lib C.type kC
  have hempty : truthy "" = false := rfl
  simp [Blockly.Events.disableOrphans, Blockly.Events.disableChain,
    Blockly.Events.disableTarget, chain, Node.block, Block.type, nA, pA, nB, nC,
    javascriptGenerator.topBlocksToCode, javascriptGenerator.blockToCode,
    javascriptGenerator.targetToCode, hempty, bind, Except.bind, pure, Except.pure]

/-! ## C8: chain ordering -/

/-- C8 (as amended). For a chain `A → B → C` of enabled statement blocks of the
module (chainable kinds) whose own fragments are `a`, `b` and `c`, whatever the
library registers: the code of the chain is `a ++ b ++ c`, so `a` stands before `b`
and `b` before `c`; in the `event` socket of a `slash_received` block and in the
`commands` socket of a `slash_createcontainer` block the template of the enclosing
block wraps that concatenation after `statementToCode` has put two spaces in front
of it and after each of its newlines, fragment by fragment in the same order; for a
root `slash_received` block holding the chain, which `disableOrphans` leaves as it
is, the listener writes the preamble and then that wrapped text with the white space
scrubbed by `workspaceToCode`; as a root chain the three blocks are disabled by
`disableOrphans` and the listener writes the preamble only. -/
theorem chain_ordering (lib : Library) (A B C : Node) (a b c : String)
    (kA : A.type ∈ chainableKinds) (kB : B.type ∈ chainableKinds)
    (kC : C.type ∈ chainableKinds)
    (hA : javascriptGenerator.ownCode lib (A.block .null) = .ok (.code a))
    (hB : javascriptGenerator.ownCode lib (B.block .null) = .ok (.code b))
    (hC : javascriptGenerator.ownCode lib (C.block .null) = .ok (.code c)) :
    javascriptGenerator.blockToCode lib (A.block (chain [B, C])) = .ok (.str (a ++ b ++ c)) ∧
    javascriptGenerator.blockToCode lib (receivedWith (A.block (chain [B, C]))) =
      .ok (.str (receivedTemplate
        (javascriptGenerator.prefixLines (a ++ b ++ c) javascriptGenerator.INDENT))) ∧
    javascriptGenerator.blockToCode lib
        (.mk "slash_createcontainer" [] true
          (.cons "commands" (A.block (chain [B, C])) .nil) .null) =
      .ok (.str (globalVariant
        (javascriptGenerator.prefixLines (a ++ b ++ c) javascriptGenerator.INDENT))) ∧
    javascriptGenerator.prefixLines (a ++ b ++ c) javascriptGenerator.INDENT =
      javascriptGenerator.INDENT ++ (indentEvery a javascriptGenerator.INDENT ++
        (indentEvery b javascriptGenerator.INDENT ++ indentLast c javascriptGenerator.INDENT)) ∧
    Blockly.Events.disableOrphans lib [receivedWith (A.block (chain [B, C]))] =
      [receivedWith (A.block (chain [B, C]))] ∧
    changeListener lib
        (Blockly.Events.disableOrphans lib [receivedWith (A.block (chain [B, C]))]) =
      .ok (preamble ++ scrubWhitespace (javascriptGenerator.finish (receivedTemplate
        (javascriptGenerator.prefixLines (a ++ b ++ c) javascriptGenerator.INDENT))) ++
        "\n      ") ∧
    changeListener lib (Blockly.Events.disableOrphans lib [A.block (chain [B, C])]) =
      .ok (preamble ++ "" ++ "\n      ") := by
  have ha : a ≠ "" := ownCode_ne_empty lib A a kA hA
  have hb : b ≠ "" := ownCode_ne_empty lib B b kB hB
  have hc : c ≠ "" := ownCode_ne_empty lib C c kC hC
  have hCcode : javascriptGenerator.blockToCode lib (C.block .null) = .ok (.str (c ++ "")) :=
    blockToCode_step lib C .null c "" kC hC rfl
  have hBcode : javascriptGenerator.blockToCode lib (B.block (chain [C])) =
      .ok (.str (b ++ (c ++ ""))) :=
    blockToCode_step lib B (chain [C]) b (c ++ "") kB hB hCcode
  have hAcode : javascriptGenerator.blockToCode lib (A.block (chain [B, C])) =
      .ok (.str (a ++ (b ++ (c ++ "")))) :=
    blockToCode_step lib A (chain [B, C]) a (b ++ (c ++ "")) kA hA hBcode
  have hstr : a ++ (b ++ (c ++ "")) = a ++ b ++ c := by
    rw [String.append_empty, String.append_assoc]
  rw [hstr] at hAcode
  have habc : a ++ b ++ c ≠ "" := by
    rw [String.append_assoc]
    exact append_ne_empty _ _ ha
  have hkeep : Blockly.Events.disableOrphans lib [receivedWith (A.block (chain [B, C]))] =
      [receivedWith (A.block (chain [B, C]))] := rfl
  refine ⟨hAcode, received_wraps lib _ _ _ _ hAcode habc,
    createcontainer_wraps lib _ _ _ hAcode habc, prefixLines_append3 a b c _ hb hc, hkeep, ?_, ?_⟩
  · rw [hkeep, changeListener_eq, received_root_line lib _ _ hAcode habc]
    simp [String.intercalate, String.intercalate.go]
  · rw [changeListener_eq, root_chain_disabled lib A B C kA kB kC]
    rfl

theorem chain_ordering_witness :
    javascriptGenerator.blockToCode blocklyLibrary
        (replyTextNode.block (chain [editreplyNode, containerNode])) =
      .ok (.str (replyTemplate "'hi'" "" ++
        editreplyTemplate "(interaction.commandName)" ++ globalVariant "")) :=
  (chain_ordering blocklyLibrary replyTextNode editreplyNode containerNode
    (replyTemplate "'hi'" "") (editreplyTemplate "(interaction.commandName)")
    (globalVariant "") (by decide) (by decide) (by decide) rfl rfl rfl).1

set_option maxRecDepth 100000 in
/-- C8 (counterexample to the claim as stated). For the root chain reply → edit
reply → create container, which `disableOrphans` disables, the listener writes the
preamble only, and none of the three fragments occurs in that text.  For the same
chain in the `event` socket of a root `slash_received` block the program contains
the fragments indented and with line ends trimmed: none of the three fragments
occurs in it as generated. -/
theorem chain_fragments_not_verbatim :
    changeListener blocklyLibrary
        (Blockly.Events.disableOrphans blocklyLibrary workspaceRootChain) =
      .ok (preamble ++ "\n      ") ∧
    occursIn (replyTemplate "(interaction.commandName)" "") (preamble ++ "\n      ") = false ∧
    occursIn (editreplyTemplate "(interaction.commandName)") (preamble ++ "\n      ") = false ∧
    occursIn (globalVariant "") (preamble ++ "\n      ") = false ∧
    javascriptGenerator.workspaceToCode blocklyLibrary
        (Blockly.Events.disableOrphans blocklyLibrary workspaceNestedChain) =
      .ok nestedChainText ∧
    occursIn (replyTemplate "(interaction.commandName)" "") nestedChainText = false ∧
    occursIn (editreplyTemplate "(interaction.commandName)") nestedChainText = false ∧
    occursIn (globalVariant "") nestedChainText = false := by
  refine ⟨?_, ?_, ?_, ?_, ?_, ?_, ?_, ?_⟩ <;> decide

/-! ## C10: a block of a kind without generator function -/

theorem finishBlock_next_error (lib : Library) (type : String) (result : GenResult)
    (e : GenError) (hn : Blockly.hasNext lib type = true) :
    ∃ e2, javascriptGenerator.finishBlock lib type result (.error e) = .error e2 := by
  cases result with
  | code s => exact ⟨e, by simp [javascriptGenerator.finishBlock, hn, bind, Except.bind]⟩
  | undefined => exact ⟨_, rfl⟩
  | tuple s order =>
    by_cases ho : Blockly.hasOutput lib type = true
    · exact ⟨e, by simp [javascriptGenerator.finishBlock, hn, ho, bind, Except.bind]⟩
    · have ho2 : Blockly.hasOutput lib type = false := by simpa using ho
      exact ⟨_, by simp [javascriptGenerator.finishBlock, ho2, throw, throwThe, MonadExceptOf.throw]; rfl⟩

theorem unknown_block_error (lib : Library) (u : Node) (next : Target)
    (hu : javascriptGenerator.forBlock lib u.type = none) :
    javascriptGenerator.blockToCode lib (u.block next) = .error (.unknownBlockType u.type) := by
  simp [Node.block, javascriptGenerator.blockToCode, hu]
  rfl

theorem chain_unknown_error (lib : Library) (before after : List Node) (u : Node)
    (hb : ∀ n ∈ before, Blockly.hasNext lib n.type = true)
    (hu : javascriptGenerator.forBlock lib u.type = none) :
    ∃ e, javascriptGenerator.targetToCode lib (chain (before ++ u :: after)) = .error e := by
  induction before with
  | nil =>
    exact ⟨.unknownBlockType u.type, by
      simp only [List.nil_append, chain, javascriptGenerator.targetToCode]
      exact unknown_block_error lib u _ hu⟩
  | cons n before ih =>
    obtain ⟨e, he⟩ := ih (fun m hm => hb m (List.mem_cons_of_mem _ hm))
    have hn : Blockly.hasNext lib n.type = true := hb n (List.mem_cons_self _ _)
    have he2 : javascriptGenerator.targetToCode lib (chain (before.append (u :: after))) =
        .error e := he
    simp only [List.cons_append, chain, javascriptGenerator.targetToCode, Node.block]
    rw [javascriptGenerator.blockToCode]
    simp only [Bool.not_true, Bool.false_eq_true, if_false]
    cases hf : javascriptGenerator.forBlock lib n.type with
    | none => exact ⟨_, rfl⟩
    | some func =>
      simp only [bind, Except.bind]
      cases func (Block.mk n.type n.fields true n.inputs (chain (before.append (u :: after))))
          (javascriptGenerator.generatorFor lib n.type
            (javascriptGenerator.inputsToCode lib n.inputs)) with
      | error e1 => exact ⟨e1, rfl⟩
      | ok result =>
        simp only [he2]
        exact finishBlock_next_error lib n.type result e hn

theorem topBlocksToCode_error (lib : Library) (others1 others2 : List Block) (head : Block)
    (e : GenError) (h : javascriptGenerator.blockToCode lib head = .error e) :
    ∃ e2, javascriptGenerator.topBlocksToCode lib (others1 ++ head :: others2) = .error e2 := by
  induction others1 with
  | nil => exact ⟨e, by simp [javascriptGenerator.topBlocksToCode, h, bind, Except.bind]⟩
  | cons b bs ih =>
    obtain ⟨e2, he2⟩ := ih
    cases hb : javascriptGenerator.blockToCode lib b with
    | error e1 =>
      exact ⟨e1, by simp [javascriptGenerator.topBlocksToCode, hb, bind, Except.bind]⟩
    | ok v =>
      exact ⟨e2, by simp [javascriptGenerator.topBlocksToCode, hb, he2, bind, Except.bind]⟩

theorem listener_error (lib : Library) (workspace : List Block) (e : GenError)
    (h : javascriptGenerator.topBlocksToCode lib workspace = .error e) :
    javascriptGenerator.workspaceToCode lib workspace = .error e ∧
      changeListener lib workspace = .error e := by
  have hw : javascriptGenerator.workspaceToCode lib workspace = .error e := by
    simp [javascriptGenerator.workspaceToCode, h, bind, Except.bind]
  exact ⟨hw, by simp [changeListener, hw, bind, Except.bind]⟩

theorem received_error (lib : Library) (f : List (String × String)) (nx : Target) (body : Block)
    (e : GenError) (h : javascriptGenerator.blockToCode lib body = .error e) :
    javascriptGenerator.blockToCode lib (.mk "slash_received" f true (.cons "event" body .nil) nx) =
      .error e := by
  have h2 : javascriptGenerator.forBlock lib "slash_received" = some slash_received := rfl
  rw [javascriptGenerator.blockToCode]
  simp [h2, javascriptGenerator.inputsToCode, javascriptGenerator.generatorFor, slash_received,
    javascriptGenerator.statementToCode, List.lookup, h, bind, Except.bind]

/-- `disableOrphans` leaves a root `slash_received` block as it is. -/
theorem disableOrphans_received (lib : Library) (others1 others2 : List Block) (body : Block) :
    Blockly.Events.disableOrphans lib (others1 ++ receivedWith body :: others2) =
      Blockly.Events.disableOrphans lib others1 ++
        receivedWith body :: Blockly.Events.disableOrphans lib others2 := by
  have h : (if (Blockly.hasOutput lib (receivedWith body).type ||
      Blockly.hasPrevious lib (receivedWith body).type) = true
      then Blockly.Events.disableChain lib (receivedWith body) else receivedWith body) =
      receivedWith body := rfl
  simp only [Blockly.Events.disableOrphans, List.map_append, List.map_cons, h]

/-- C10 (as amended). When a chain of enabled blocks contains a block whose kind has
no registered generator function, after blocks that have a next connection,
generation aborts: `blockToCode` of the chain raises an error and emits no
placeholder, and for every workspace that has the chain in the `event` socket of a
root `slash_received` block, `workspaceToCode` and the change listener raise the
same error, whatever the other root chains are and whatever else the library
registers, so nothing is written. -/
theorem unknown_kind_aborts (lib : Library) (before after : List Node) (u : Node)
    (hb : ∀ n ∈ before, Blockly.hasNext lib n.type = true)
    (hu : javascriptGenerator.forBlock lib u.type = none) :
    (∃ e, javascriptGenerator.targetToCode lib (chain (before ++ u :: after)) = .error e) ∧
    (∀ (head : Block) (others1 others2 : List Block),
      chain (before ++ u :: after) = .block head →
      ∃ e,
        javascriptGenerator.workspaceToCode lib
          (Blockly.Events.disableOrphans lib (others1 ++ receivedWith head :: others2)) =
            .error e ∧
        changeListener lib
          (Blockly.Events.disableOrphans lib (others1 ++ receivedWith head :: others2)) =
            .error e) := by
  obtain ⟨e, he⟩ := chain_unknown_error lib before after u hb hu
  refine ⟨⟨e, he⟩, ?_⟩
  intro head others1 others2 hhead
  rw [hhead] at he
  have hcode : javascriptGenerator.blockToCode lib head = .error e := by
    simpa [javascriptGenerator.targetToCode] using he
  rw [disableOrphans_received]
  obtain ⟨e2, he2⟩ := topBlocksToCode_error lib (Blockly.Events.disableOrphans lib others1)
    (Blockly.Events.disableOrphans lib others2) (receivedWith head) e
    (received_error lib _ _ _ e hcode)
  exact ⟨e2, listener_error lib _ e2 he2⟩

theorem unknown_kind_aborts_witness :
    ∃ e, javascriptGenerator.targetToCode blocklyLibrary
      (chain ([replyTextNode] ++ unknownNode :: [editreplyNode])) = .error e :=
  (unknown_kind_aborts blocklyLibrary [replyTextNode] [editreplyNode] unknownNode
    (by intro n hn; simp at hn; subst hn; rfl) rfl).1

set_option maxRecDepth 100000 in
/-- C10 (counterexample to the claim as stated). `controls_if_elseif` is a kind that
Blockly defines, with a previous and a next connection, and for which
`blockly/javascript` has no generator function.  In a workspace whose first root
block is a `slash_received` block holding the chain reply → `controls_if_elseif` →
edit reply, and which `disableOrphans` leaves as it is, generation raises
`unknownBlockType`: the listener writes nothing, neither a placeholder nor the code
of the other blocks of the chain nor the code of the sibling chain, although the
sibling chain alone generates its code.  The same holds for every library that has
no generator function for `controls_if_elseif`. -/
theorem unknown_kind_no_placeholder :
    javascriptGenerator.forBlock blocklyLibrary "controls_if_elseif" = none ∧
    Blockly.Events.disableOrphans blocklyLibrary workspaceWithUnknown = workspaceWithUnknown ∧
    javascriptGenerator.workspaceToCode blocklyLibrary
        (Blockly.Events.disableOrphans blocklyLibrary workspaceWithUnknown) =
      .error (.unknownBlockType "controls_if_elseif") ∧
    changeListener blocklyLibrary
        (Blockly.Events.disableOrphans blocklyLibrary workspaceWithUnknown) =
      .error (.unknownBlockType "controls_if_elseif") ∧
    javascriptGenerator.workspaceToCode blocklyLibrary
        (Blockly.Events.disableOrphans blocklyLibrary workspaceWithoutUnknown) =
      .ok "client.on(\"interactionCreate\", async (interaction) => \x7b\n            interaction.reply(\x7b\n      content: (interaction.commandName),\n      ephemeral:\n    \x7d);\n      \x7d);" ∧
    (∀ lib : Library, lib.forBlock "controls_if_elseif" = none →
      changeListener lib (Blockly.Events.disableOrphans lib workspaceWithUnknown) =
        .error (.unknownBlockType "controls_if_elseif")) := by
  refine ⟨rfl, rfl, rfl, rfl, rfl, ?_⟩
  intro lib hlib
  have hu : javascriptGenerator.forBlock lib unknownNode.type = none := by
    have hl : javascriptGenerator.forBlockTable.lookup "controls_if_elseif" = none := rfl
    simp only [javascriptGenerator.forBlock, unknownNode, hl, hlib]
  have h1 : javascriptGenerator.blockToCode lib
      (unknownNode.block (Target.block (editreplyNode.block Target.null))) =
      .error (.unknownBlockType "controls_if_elseif") :=
    unknown_block_error lib unknownNode _ hu
  have hf : javascriptGenerator.forBlockTable.lookup replyNode.type = some slash_reply := rfl
  have hn : Blockly.hasNext lib replyNode.type = true := rfl
  have hown : javascriptGenerator.ownCode lib (replyNode.block .null) =
      .ok (.code (replyTemplate "(interaction.commandName)" "")) := rfl
  have h2 : javascriptGenerator.blockToCode lib
      (replyNode.block (chain [unknownNode, editreplyNode])) =
      .error (.unknownBlockType "controls_if_elseif") := by
    unfold Node.block at hown ⊢
    rw [blockToCode_eq lib _ _ _ _ slash_reply hf, hown]
    simp only [Except.bind, javascriptGenerator.finishBlock, hn, if_true, chain,
      javascriptGenerator.targetToCode, h1, bind]
  have h3 := received_error lib [] .null _ _ h2
  have h4 : javascriptGenerator.topBlocksToCode lib workspaceWithUnknown =
      .error (.unknownBlockType "controls_if_elseif") := by
    unfold workspaceWithUnknown receivedWith
    simp [javascriptGenerator.topBlocksToCode, h3, bind, Except.bind]
  have hkeep : Blockly.Events.disableOrphans lib workspaceWithUnknown = workspaceWithUnknown :=
    rfl
  rw [hkeep]
  exact (listener_error lib _ _ h4).2

/-! ## C11: the registry of block definitions and the registry of generators -/

theorem lookup_isSome_iff {β : Type} (tbl : List (String × β)) (k : String) :
    (tbl.lookup k).isSome = true ↔ k ∈ tbl.map (fun entry => entry.1) := by
  induction tbl with
  | nil => simp [List.lookup]
  | cons hd tl ih =>
    obtain ⟨a, b⟩ := hd
    by_cases hk : k = a
    · subst hk
      simp [List.lookup]
    · have hb : (k == a) = false := by simpa using hk
      simp [List.lookup, hb, ih, hk]

/-- A generator function of slash.js raises `unknownBlockType` only when one of its
calls into the generator does. -/
theorem func_namesUnregistered (lib : Library) (type : String) (func : GeneratorFn)
    (h : javascriptGenerator.forBlockTable.lookup type = some func) (block : Block)
    (generator : Generator)
    (hv : ∀ name order, namesUnregistered lib (generator.valueToCode name order))
    (hs : ∀ name, namesUnregistered lib (generator.statementToCode name)) :
    namesUnregistered lib (func block generator) := by
  have hm := forBlock_mem type func h
  simp only [javascriptGenerator.forBlockTable, List.mem_cons, Prod.mk.injEq,
    List.mem_singleton, List.not_mem_nil, or_false] at hm
  intro ty hty
  rcases hm with h | h | h | h | h | h | h | h | h | h | h | h | h | h | h <;>
    obtain ⟨_, h2⟩ := h <;> subst h2
  all_goals
    simp only [slash_getoption, slash_editreply, slash_reply, slash_received,
      slash_createcontainer, slash_create, slash_addoption, slash_addchoice, slash_server,
      slash_channel, slash_member, slash_user, slash_addsubcommand, slash_addsubcommandgroup,
      slash_name, bind, Except.bind, pure, Except.pure] at hty
  all_goals repeat' split at hty
  all_goals
    first
      | (cases hty; done)
      | (simp only [Except.error.injEq] at hty
         subst hty
         first
           | (apply hv; assumption)
           | (apply hs; assumption))

theorem valueToCode_namesUnregistered (lib : Library) (type : String)
    (codes : javascriptGenerator.InputCodes) (name : String) (outerOrder : Order)
    (h : ∀ entry ∈ codes, namesUnregistered lib entry.2.2) :
    namesUnregistered lib (javascriptGenerator.valueToCode lib type codes name outerOrder) := by
  intro ty hty
  unfold javascriptGenerator.valueToCode at hty
  cases hl : codes.lookup name with
  | none =>
    simp only [hl] at hty
    split at hty <;> cases hty
  | some entry =>
    obtain ⟨targetType, result⟩ := entry
    have hr : namesUnregistered lib result := h _ (lookup_mem _ _ _ hl)
    simp only [hl] at hty
    cases result with
    | error e =>
      have he : e = .unknownBlockType ty := by
        simpa [bind, Except.bind] using hty
      exact hr ty (by rw [he])
    | ok v =>
      simp only [bind, Except.bind] at hty
      repeat' split at hty
      all_goals cases hty

theorem statementToCode_namesUnregistered (lib : Library) (type : String)
    (codes : javascriptGenerator.InputCodes) (name : String)
    (h : ∀ entry ∈ codes, namesUnregistered lib entry.2.2) :
    namesUnregistered lib (javascriptGenerator.statementToCode lib type codes name) := by
  intro ty hty
  unfold javascriptGenerator.statementToCode at hty
  cases hl : codes.lookup name with
  | none =>
    simp only [hl] at hty
    split at hty <;> cases hty
  | some entry =>
    obtain ⟨targetType, result⟩ := entry
    have hr : namesUnregistered lib result := h _ (lookup_mem _ _ _ hl)
    simp only [hl] at hty
    cases result with
    | error e =>
      have he : e = .unknownBlockType ty := by
        simpa [bind, Except.bind] using hty
      exact hr ty (by rw [he])
    | ok v =>
      simp only [bind, Except.bind] at hty
      repeat' split at hty
      all_goals cases hty

theorem finishBlock_namesUnregistered (lib : Library) (type : String) (result : GenResult)
    (nextCode : Except GenError GenValue) (h : namesUnregistered lib nextCode) :
    namesUnregistered lib (javascriptGenerator.finishBlock lib type result nextCode) := by
  intro ty hty
  have scrub : ∀ (code : String) (k : String → Except GenError GenValue),
      (∀ c, k c ≠ .error (.unknownBlockType ty)) →
      ((if Blockly.hasNext lib type = true then
          (nextCode.bind fun next => Except.ok (code ++ next.toJSString))
        else Except.ok code).bind k) = .error (.unknownBlockType ty) →
      javascriptGenerator.forBlock lib ty = none := by
    intro code k hk hq
    by_cases hn : Blockly.hasNext lib type = true
    · simp only [hn, if_true] at hq
      cases nextCode with
      | error e => exact h ty hq
      | ok v => exact absurd hq (hk _)
    · simp only [hn] at hq
      exact absurd hq (hk _)
  cases result with
  | undefined => cases hty
  | code s =>
    exact scrub s (fun c => Except.ok (.str c)) (fun c hc => by cases hc) hty
  | tuple s order =>
    by_cases ho : Blockly.hasOutput lib type = true
    · simp only [javascriptGenerator.finishBlock, ho, Bool.not_true, Bool.false_eq_true,
        if_false] at hty
      exact scrub s (fun c => Except.ok (.tuple c order)) (fun c hc => by cases hc) hty
    · have ho2 : Blockly.hasOutput lib type = false := by simpa using ho
      simp only [javascriptGenerator.finishBlock, ho2, Bool.not_false, if_true] at hty
      cases hty

theorem registered_namesUnregistered (lib : Library) (hlib : lib.raisesUnknownOnlyFromCalls)
    (type : String) (func : GeneratorFn)
    (hf : javascriptGenerator.forBlock lib type = some func) (block : Block)
    (generator : Generator)
    (hv : ∀ name order, namesUnregistered lib (generator.valueToCode name order))
    (hs : ∀ name, namesUnregistered lib (generator.statementToCode name)) :
    namesUnregistered lib (func block generator) := by
  unfold javascriptGenerator.forBlock at hf
  cases hl : javascriptGenerator.forBlockTable.lookup type with
  | some f =>
    simp only [hl, Option.some.injEq] at hf
    subst hf
    exact func_namesUnregistered lib type f hl block generator hv hs
  | none =>
    simp only [hl] at hf
    exact hlib type func block generator hf hv hs

mutual
/-- `blockToCode` raises `unknownBlockType` only for a kind without generator
function. -/
theorem blockToCode_namesUnregistered (lib : Library) (hlib : lib.raisesUnknownOnlyFromCalls) :
    ∀ block : Block, namesUnregistered lib (javascriptGenerator.blockToCode lib block)
  | .mk t f en i nx => by
    intro ty hty
    rw [javascriptGenerator.blockToCode] at hty
    cases en with
    | false =>
      simp only [Bool.not_false, if_true] at hty
      by_cases hn : Blockly.hasNext lib t = true
      · simp only [hn, if_true] at hty
        exact targetToCode_namesUnregistered lib hlib nx ty hty
      · simp only [hn] at hty
        cases hty
    | true =>
      simp only [Bool.not_true, Bool.false_eq_true, if_false] at hty
      cases hf : javascriptGenerator.forBlock lib t with
      | none =>
        simp only [hf] at hty
        cases hty
        exact hf
      | some func =>
        have hgen := registered_namesUnregistered lib hlib t func hf (Block.mk t f true i nx)
          (javascriptGenerator.generatorFor lib t (javascriptGenerator.inputsToCode lib i))
          (fun name order => valueToCode_namesUnregistered lib t _ name order
            (inputsToCode_namesUnregistered lib hlib i))
          (fun name => statementToCode_namesUnregistered lib t _ name
            (inputsToCode_namesUnregistered lib hlib i))
        cases hr : func (Block.mk t f true i nx)
            (javascriptGenerator.generatorFor lib t (javascriptGenerator.inputsToCode lib i)) with
        | error e =>
          simp only [hf, hr, bind, Except.bind] at hty
          rw [hr] at hgen
          have he : e = .unknownBlockType ty := Except.error.inj hty
          exact hgen ty (by rw [he])
        | ok result =>
          simp only [hf, hr, bind, Except.bind] at hty
          exact finishBlock_namesUnregistered lib t result _
            (targetToCode_namesUnregistered lib hlib nx) ty hty
theorem targetToCode_namesUnregistered (lib : Library) (hlib : lib.raisesUnknownOnlyFromCalls) :
    ∀ target : Target, namesUnregistered lib (javascriptGenerator.targetToCode lib target)
  | .null => by
    intro ty hty
    simp [javascriptGenerator.targetToCode, pure, Except.pure] at hty
  | .block b => by
    intro ty hty
    rw [javascriptGenerator.targetToCode] at hty
    exact blockToCode_namesUnregistered lib hlib b ty hty
theorem inputsToCode_namesUnregistered (lib : Library) (hlib : lib.raisesUnknownOnlyFromCalls) :
    ∀ inputs : Inputs, ∀ entry ∈ javascriptGenerator.inputsToCode lib inputs,
      namesUnregistered lib entry.2.2
  | .nil => by
    intro entry he
    simp [javascriptGenerator.inputsToCode] at he
  | .cons name target rest => by
    intro entry he
    rw [javascriptGenerator.inputsToCode] at he
    rcases List.mem_cons.mp he with h | h
    · subst h
      exact blockToCode_namesUnregistered lib hlib target
    · exact inputsToCode_namesUnregistered lib hlib rest entry h
end

theorem empty_raisesUnknownOnlyFromCalls : Library.empty.raisesUnknownOnlyFromCalls := by
  intro type func block generator hf
  cases hf

/-- C11. The kind ids declared in `Blockly.Blocks` by slash.js and the kind ids with
a generator function in `javascriptGenerator.forBlock` are the same set: each
registry has 15 entries without repeated id, and a kind id is declared exactly when
it has a generator function.  So every kind with a generator function has a block
definition, every declared kind has a generator function in the registry of the
running app whatever the library adds, and when `blockToCode` raises
`unknownBlockType` for some block of a graph, the kind it names is not one of the
module: with the assignments of slash.js alone, and with every library whose
functions raise that exception only for kinds without generator function. -/
theorem registry_complete :
    declaredKinds.length = 15 ∧ generatorKinds.length = 15 ∧
    declaredKinds.Nodup ∧ generatorKinds.Nodup ∧
    (∀ type : String, type ∈ declaredKinds ↔ type ∈ generatorKinds) ∧
    (∀ type : String,
      (Blockly.Blocks.lookup type).isSome =
        (javascriptGenerator.forBlockTable.lookup type).isSome) ∧
    (∀ (lib : Library) (type : String), type ∈ declaredKinds →
      (javascriptGenerator.forBlock lib type).isSome = true) ∧
    (∀ (block : Block) (type : String),
      javascriptGenerator.blockToCode Library.empty block = .error (.unknownBlockType type) →
      type ∉ declaredKinds ∧ type ∉ generatorKinds) ∧
    (∀ (lib : Library), lib.raisesUnknownOnlyFromCalls → ∀ (block : Block) (type : String),
      javascriptGenerator.blockToCode lib block = .error (.unknownBlockType type) →
      type ∉ declaredKinds ∧ type ∉ generatorKinds) := by
  have hsub1 : ∀ type ∈ declaredKinds, type ∈ generatorKinds := by decide
  have hsub2 : ∀ type ∈ generatorKinds, type ∈ declaredKinds := by decide
  have hiff : ∀ type : String, type ∈ declaredKinds ↔ type ∈ generatorKinds :=
    fun type => ⟨hsub1 type, hsub2 type⟩
  have hsome : ∀ type : String,
      (Blockly.Blocks.lookup type).isSome =
        (javascriptGenerator.forBlockTable.lookup type).isSome := by
    intro type
    have h1 := lookup_isSome_iff Blockly.Blocks type
    have h2 := lookup_isSome_iff javascriptGenerator.forBlockTable type
    have h3 := hiff type
    unfold declaredKinds generatorKinds at h3
    exact Bool.eq_iff_iff.mpr (h1.trans (h3.trans h2.symm))
  have hreg : ∀ (lib : Library) (type : String), type ∈ generatorKinds →
      (javascriptGenerator.forBlock lib type).isSome = true := by
    intro lib type hmem
    have h2 := (lookup_isSome_iff javascriptGenerator.forBlockTable type).2 hmem
    unfold javascriptGenerator.forBlock
    cases hl : javascriptGenerator.forBlockTable.lookup type with
    | none => rw [hl] at h2; cases h2
    | some func => rfl
  have hgeneral : ∀ (lib : Library), lib.raisesUnknownOnlyFromCalls →
      ∀ (block : Block) (type : String),
      javascriptGenerator.blockToCode lib block = .error (.unknownBlockType type) →
      type ∉ declaredKinds ∧ type ∉ generatorKinds := by
    intro lib hlib block type herr
    have hnone : javascriptGenerator.forBlock lib type = none :=
      blockToCode_namesUnregistered lib hlib block type herr
    have hgen : type ∉ generatorKinds := by
      intro hmem
      have h2 := hreg lib type hmem
      rw [hnone] at h2
      cases h2
    exact ⟨fun hmem => hgen ((hiff type).1 hmem), hgen⟩
  exact ⟨rfl, rfl, by decide, by decide, hiff, hsome,
    fun lib type hmem => hreg lib type ((hiff type).1 hmem),
    hgeneral Library.empty empty_raisesUnknownOnlyFromCalls, hgeneral⟩

end DisFuse
